import Mathlib

/-
Verification development for the jeongsedam policy report application
(src/app.py).  The embedding below models, faithfully to the source:

  * parse_json_response and generate_policy_analysis (the AI-engine
    retry logic), with the external chat-completion client abstracted as
    the sequence of its responses and the external JSON decoder
    (json.loads) abstracted as a function String -> Option α that
    returns none exactly when loads would raise;

  * create_pdf_report (the paginated report renderer), with the
    reportlab canvas modelled as the list of draw operations it
    receives, the vertical cursor as an explicit rational value, image
    decoding (reportlab ImageReader / PIL) abstracted as a predicate on
    the raw byte blob, and the font-registration try/except and the
    ambient clock modelled as an explicit environment record.

Python strings are sequences of unicode code points and Python slicing
is by code-point position, which matches Lean String.data : List Char;
all slicing below is performed on the data list.
-/

/-- Model of the dynamic Python values that flow through the analysis
mapping: None, strings, lists and dicts (a dict is its ordered
association list, as produced by json parsing). -/
inductive PyVal where
  | none : PyVal
  | str : String → PyVal
  | list : List PyVal → PyVal
  | dict : List (String × PyVal) → PyVal

/-- First-match key lookup in a Python dict. -/
def lookupKey (d : List (String × PyVal)) (k : String) : Option PyVal :=
  match d with
  | [] => Option.none
  | (k2, v) :: rest => if k2 = k then some v else lookupKey rest k

/-- Python truthiness of a modelled value: None is falsy, a string,
list or dict is truthy iff non-empty. -/
def PyVal.truthy : PyVal → Bool
  | .none => false
  | .str s => !s.isEmpty
  | .list l => !l.isEmpty
  | .dict d => !d.isEmpty

/-- Python `k in d` on a dict (key containment).  The source only
applies `in` to the analysis dict; on a non-dict value the model
answers false (in Python, `in` on a string would be a substring test
and on None would raise, neither of which the guarded source reaches
for the mappings the claims are about). -/
def PyVal.hasKey (v : PyVal) (k : String) : Bool :=
  match v with
  | .dict d => (lookupKey d k).isSome
  | _ => false

/-- Python `d.get(k)` (default None), also used for the guarded
indexing `d[k]` which the source only evaluates under a presence or
truthiness check.  On a non-dict value the model answers None (in
Python, .get on a non-dict raises AttributeError; the schema the
source is written against makes every such receiver a dict). -/
def PyVal.get (v : PyVal) (k : String) : PyVal :=
  match v with
  | .dict d => (lookupKey d k).getD .none
  | _ => .none

mutual

/-- Python str() of a modelled value, as used by f-string
interpolation.  For strings it is the string itself, which is the only
case the report schema exercises; containers render via an
approximation of the CPython repr (quoting subtleties of repr are not
replicated). -/
def PyVal.pyStr : PyVal → String
  | .none => "None"
  | .str s => s
  | .list l => "[" ++ String.intercalate ", " (pyReprList l) ++ "]"
  | .dict d => "\x7b" ++ String.intercalate ", " (pyReprDict d) ++ "\x7d"

/-- Python repr() of a modelled value (used for elements inside
containers). -/
def PyVal.pyRepr : PyVal → String
  | .none => "None"
  | .str s => "\x27" ++ s ++ "\x27"
  | .list l => "[" ++ String.intercalate ", " (pyReprList l) ++ "]"
  | .dict d => "\x7b" ++ String.intercalate ", " (pyReprDict d) ++ "\x7d"

def pyReprList : List PyVal → List String
  | [] => []
  | x :: xs => x.pyRepr :: pyReprList xs

def pyReprDict : List (String × PyVal) → List String
  | [] => []
  | (k, v) :: xs => ("\x27" ++ k ++ "\x27: " ++ v.pyRepr) :: pyReprDict xs

end

/-- Python `d.get(k, "")` followed by f-string interpolation: the
formatted value when the key is present, the empty default when it is
absent. -/
def PyVal.getStr (v : PyVal) (k : String) : String :=
  match v with
  | .dict d =>
    match lookupKey d k with
    | some u => u.pyStr
    | Option.none => ""
  | _ => ""

/-- The element sequence obtained by iterating or slicing a modelled
value; the source only iterates list-valued schema fields, so a
non-list answers the empty sequence (Python would iterate the
characters of a string or raise on None). -/
def PyVal.asList : PyVal → List PyVal
  | .list l => l
  | _ => []

/-- Python s[:n] on a string: the first n code points. -/
def pyTake (s : String) (n : Nat) : String :=
  String.mk (s.data.take n)

-- ==================== AI engine (parse_json_response /
-- generate_policy_analysis) ====================

/-- Python str.strip() on a code-point list. -/
def stripChars (l : List Char) : List Char :=
  ((l.dropWhile Char.isWhitespace).reverse.dropWhile Char.isWhitespace).reverse

/-- Does the pattern occur at the head of the list? -/
def isStart : List Char → List Char → Bool
  | [], _ => true
  | _ :: _, [] => false
  | a :: as, b :: bs => a == b && isStart as bs

/-- Python str.replace(pat, rep): replace every non-overlapping
occurrence of the pattern, scanning left to right.  The fuel argument
is initialised to the length of the subject and never runs out, since
every step consumes at least one character. -/
def replaceAux (pat rep : List Char) : Nat → List Char → List Char
  | 0, s => s
  | _ + 1, [] => []
  | fuel + 1, c :: rest =>
    if !pat.isEmpty && isStart pat (c :: rest) then
      rep ++ replaceAux pat rep fuel ((c :: rest).drop pat.length)
    else
      c :: replaceAux pat rep fuel rest

/-- Python str.replace on strings. -/
def pyReplace (s pat rep : String) : String :=
  String.mk (replaceAux pat.data rep.data s.data.length s.data)

/-- Python str.strip on strings. -/
def pyStrip (s : String) : String :=
  String.mk (stripChars s.data)

/-- parse_json_response from src/app.py: strip the text, remove a
markdown code fence if one opens the text, and hand the result to the
JSON decoder.  json.loads is the external standard-library collaborator
and is abstracted as loads : String → Option α, returning none exactly
when it would raise. -/
def parse_json_response {α : Type} (loads : String → Option α) (text : String) : Option α :=
  let t := pyStrip text
  let t :=
    if isStart "```".data t.data then
      pyStrip (pyReplace (pyReplace t "```json" "") "```" "")
    else t
  loads t

/-- generate_policy_analysis from src/app.py, with the external
chat-completion client abstracted as the sequence of its responses:
api n is the outcome of the (n+1)-st create call of this invocation,
Except.ok the response text and Except.error the message of a raised
exception.  The result pairs the value the Python function returns
with the number of api calls the invocation performed.  The first
response is parsed; on success it is returned after one call, on parse
failure exactly one retry call is made and its parse result is
returned, whether or not the retry parses.  A raised exception from
either call is caught and reported as (None, "Error: ..."). -/
def generate_policy_analysis {α : Type} (loads : String → Option α)
    (api : Nat → Except String String) : (Option α × String) × Nat :=
  match api 0 with
  | .error e => ((Option.none, "Error: " ++ e), 1)
  | .ok raw_text =>
    match parse_json_response loads raw_text with
    | some parsed_data => ((some parsed_data, raw_text), 1)
    | Option.none =>
      match api 1 with
      | .error e => ((Option.none, "Error: " ++ e), 2)
      | .ok retry_text => ((parse_json_response loads retry_text, retry_text), 2)

-- ==================== PDF export (create_pdf_report) ====================

/-- One operation received by the reportlab canvas.  setFont records
the size only; the font face name is constant over a create_pdf_report
call and is recorded once, next to the operation list, by
create_pdf_report itself. -/
inductive DrawOp where
  | setFont : ℚ → DrawOp
  | drawString : ℚ → ℚ → String → DrawOp
  | drawImage : List Nat → ℚ → ℚ → ℚ → ℚ → DrawOp
  | showPage : DrawOp
deriving DecidableEq

/-- The canvas as the list of operations issued so far. -/
abbrev Canvas := List DrawOp

/-- A4 page height in points (841.89), as unpacked from reportlab A4. -/
def pageHeight : ℚ := 84189 / 100

/-- A4 page width in points (595.27); unpacked by the source but never
used afterwards. -/
def pageWidth : ℚ := 59527 / 100

/-- The read-only snapshot of the subject (policy) record that the
renderer receives; the source reads these four fields with
policy.get(key, "") and string fields only. -/
structure Policy where
  title : String
  category : String
  target_audience : String
  created_at : String

/-- Environment of a create_pdf_report call: whether registering the
CID font HYSMyeongJo-Medium succeeds (the try/except at the top of the
function), and the ambient clock of the process.  The clock is carried
only to make its non-use provable: the source never reads the current
time inside create_pdf_report. -/
structure Env where
  fontOk : Bool
  now : String

/-- new_page from the source: emit showPage and reset the cursor to
the page top. -/
def new_page (c : Canvas) : Canvas × ℚ :=
  (c ++ [DrawOp.showPage], pageHeight - 50)

/-- add_heading from the source: break the page when fewer than 100
points remain, set the font, draw the heading truncated to its first
90 characters, and advance the cursor by size + 15. -/
def add_heading (c : Canvas) (y : ℚ) (text : String) (size : ℚ) : Canvas × ℚ :=
  let s := if y < 100 then new_page c else (c, y)
  (s.1 ++ [DrawOp.setFont size, DrawOp.drawString 50 s.2 (pyTake text 90)], s.2 - (size + 15))

/-- The chunk list computed by add_text:
text[i:i+max_len] for i in range(0, min(len(text), 400), max_len). -/
def sliceChunks (text : String) (maxLen : Nat) : List String :=
  (List.range ((min text.length 400 + maxLen - 1) / maxLen)).map
    (fun j => String.mk ((text.data.drop (j * maxLen)).take maxLen))

/-- The loop body of add_text: draw each chunk, breaking the page (and
re-setting the font) when fewer than 60 points remain, and advance the
cursor by size + 4 per chunk. -/
def drawLines (size indent : ℚ) : Canvas × ℚ → List String → Canvas × ℚ
  | s, [] => s
  | s, line :: rest =>
    let s2 := if s.2 < 60 then
        ((new_page s.1).1 ++ [DrawOp.setFont size], (new_page s.1).2)
      else s
    drawLines size indent
      (s2.1 ++ [DrawOp.drawString indent s2.2 line], s2.2 - (size + 4)) rest

/-- add_text from the source: break the page when fewer than 80 points
remain, set the font, slice the text into chunks of 85 characters at
indent 60 and 90 characters at any other indent, draw at most the
first 10 chunks, and finish with a 5 point gap. -/
def add_text (c : Canvas) (y : ℚ) (text : String) (size indent : ℚ) : Canvas × ℚ :=
  let s := if y < 80 then new_page c else (c, y)
  let maxLen : Nat := if indent = 60 then 85 else 90
  let s2 := drawLines size indent (s.1 ++ [DrawOp.setFont size], s.2)
    ((sliceChunks text maxLen).take 10)
  (s2.1, s2.2 - 5)

/-- The cover block: title line, then the four policy fields, at fixed
positions from the top of the first page. -/
def coverOps (p : Policy) : Canvas :=
  let y := pageHeight - 50
  [DrawOp.setFont 24, DrawOp.drawString 50 y "정책 보고서",
   DrawOp.setFont 14, DrawOp.drawString 50 (y - 50) ("제목: " ++ pyTake p.title 50),
   DrawOp.setFont 11, DrawOp.drawString 50 (y - 75) ("카테고리: " ++ pyTake p.category 60),
   DrawOp.drawString 50 (y - 95) ("대상: " ++ p.target_audience),
   DrawOp.drawString 50 (y - 115) ("생성일: " ++ p.created_at)]

/-- Loop body shared by the key_strategies and key_messages loops:
an enumerated item drawn as "idx. item". -/
def numberedStrStep (s3 : Canvas × ℚ) (p : Nat × PyVal) : Canvas × ℚ :=
  add_text s3.1 s3.2 (toString p.1 ++ ". " ++ p.2.pyStr) 10 70

/-- Loop body shared by the expected_outcomes and success_criteria
loops: a bulleted item. -/
def bulletStep (s3 : Canvas × ℚ) (o : PyVal) : Canvas × ℚ :=
  add_text s3.1 s3.2 ("• " ++ o.pyStr) 10 70

/-- Loop body of the action_items loop. -/
def actionStep (s3 : Canvas × ℚ) (p : Nat × PyVal) : Canvas × ℚ :=
  add_text s3.1 s3.2 (toString p.1 ++ ". " ++ p.2.getStr "action") 10 70

/-- Loop body of the channels loop. -/
def channelStep (s3 : Canvas × ℚ) (ch : PyVal) : Canvas × ℚ :=
  add_text s3.1 s3.2 ("• " ++ ch.getStr "channel" ++ ": " ++ ch.getStr "content_type") 10 70

/-- Loop body of the social_media_posts loop. -/
def postStep (s3 : Canvas × ℚ) (p : Nat × PyVal) : Canvas × ℚ :=
  add_text s3.1 s3.2 (toString p.1 ++ ". " ++ p.2.getStr "platform" ++ ": " ++ p.2.getStr "content") 10 70

/-- Loop body of the kpi_framework loop: the metric line, then, when
the target_range is truthy, an indented target line. -/
def kpiStep (s3 : Canvas × ℚ) (p : Nat × PyVal) : Canvas × ℚ :=
  let s4 := add_text s3.1 s3.2 (toString p.1 ++ ". " ++ p.2.getStr "metric") 10 70
  if (p.2.get "target_range").truthy then
    add_text s4.1 s4.2 ("   목표: " ++ (p.2.get "target_range").pyStr) 9 75
  else s4

/-- Loop body of the stakeholders loop. -/
def stakeholderStep (s3 : Canvas × ℚ) (p : Nat × PyVal) : Canvas × ℚ :=
  add_text s3.1 s3.2 (toString p.1 ++ ". " ++ p.2.getStr "group" ++ ": " ++ p.2.getStr "interests") 10 70

/-- Loop body of the objection_handling loop: the objection line and
the response line. -/
def objStep (s3 : Canvas × ℚ) (obj : PyVal) : Canvas × ℚ :=
  let s4 := add_text s3.1 s3.2 ("• 반대: " ++ obj.getStr "objection") 10 70
  add_text s4.1 s4.2 ("  대응: " ++ obj.getStr "response") 9 75

/-- Body of section 1 (정책 기획), entered when "policy_planning" is a
key of the analysis. -/
def renderPlanning (s : Canvas × ℚ) (planning : PyVal) : Canvas × ℚ :=
  let s := if (planning.get "objective").truthy then
      add_text s.1 s.2 ("[목표] " ++ (planning.get "objective").pyStr) 10 60
    else s
  let s := if (planning.get "target_analysis").truthy then
      add_text s.1 s.2 ("[대상 분석] " ++ (planning.get "target_analysis").pyStr) 10 60
    else s
  let s := if (planning.get "key_strategies").truthy then
      (List.enumFrom 1 ((planning.get "key_strategies").asList.take 8)).foldl
        numberedStrStep (add_text s.1 s.2 "[핵심 전략]" 11 60)
    else s
  let s := if (planning.get "expected_outcomes").truthy then
      ((planning.get "expected_outcomes").asList.take 5).foldl
        bulletStep (add_text s.1 s.2 "[기대 효과]" 11 60)
    else s
  s

/-- Body of section 2 (실행 계획); note that risk_management, although
part of the prompt schema, is never read here or anywhere else in the
renderer. -/
def renderExecution (s : Canvas × ℚ) (execution : PyVal) : Canvas × ℚ :=
  let s := if (execution.get "action_items").truthy then
      (List.enumFrom 1 ((execution.get "action_items").asList.take 8)).foldl
        actionStep (add_text s.1 s.2 "[실행 항목]" 11 60)
    else s
  let s := if (execution.get "resources_needed").truthy then
      let res := execution.get "resources_needed"
      let s := add_text s.1 s.2 "[필요 자원]" 11 60
      let s := if (res.get "budget_range").truthy then
          add_text s.1 s.2 ("예산: " ++ (res.get "budget_range").pyStr) 10 70
        else s
      let s := if (res.get "personnel").truthy then
          add_text s.1 s.2 ("인력: " ++ (res.get "personnel").pyStr) 10 70
        else s
      s
    else s
  s

/-- Body of section 3 (커뮤니케이션 전략). -/
def renderComm (s : Canvas × ℚ) (comm : PyVal) : Canvas × ℚ :=
  let s := if (comm.get "key_messages").truthy then
      (List.enumFrom 1 ((comm.get "key_messages").asList.take 8)).foldl
        numberedStrStep (add_text s.1 s.2 "[핵심 메시지]" 11 60)
    else s
  let s := if (comm.get "channels").truthy then
      ((comm.get "channels").asList.take 5).foldl
        channelStep (add_text s.1 s.2 "[채널 전략]" 11 60)
    else s
  s

/-- Body of section 4 (콘텐츠 제작 브리프); the three brief blocks are
guarded by key presence, not truthiness. -/
def renderBriefs (s : Canvas × ℚ) (briefs : PyVal) : Canvas × ℚ :=
  let s := if briefs.hasKey "image_brief_1" then
      let b1 := briefs.get "image_brief_1"
      let s := add_text s.1 s.2 "[이미지 브리프 1]" 11 60
      let s := add_text s.1 s.2 ("컨셉: " ++ b1.getStr "concept") 10 70
      add_text s.1 s.2 ("장면: " ++ b1.getStr "scene_description") 10 70
    else s
  let s := if briefs.hasKey "image_brief_2" then
      let b2 := briefs.get "image_brief_2"
      let s := add_text s.1 s.2 "[이미지 브리프 2]" 11 60
      let s := add_text s.1 s.2 ("컨셉: " ++ b2.getStr "concept") 10 70
      add_text s.1 s.2 ("장면: " ++ b2.getStr "scene_description") 10 70
    else s
  let s := if briefs.hasKey "video_brief" then
      let vb := briefs.get "video_brief"
      let s := add_text s.1 s.2 "[영상 브리프]" 11 60
      add_text s.1 s.2 ("스토리: " ++ vb.getStr "narrative_arc") 10 70
    else s
  s

/-- Body of section 5 (마케팅 자료). -/
def renderMarketing (s : Canvas × ℚ) (mk : PyVal) : Canvas × ℚ :=
  let s := if (mk.get "slogan").truthy then
      add_text s.1 s.2 ("[슬로건] " ++ (mk.get "slogan").pyStr) 11 60
    else s
  let s := if (mk.get "tagline").truthy then
      add_text s.1 s.2 ("[태그라인] " ++ (mk.get "tagline").pyStr) 10 60
    else s
  let s := if (mk.get "elevator_pitch").truthy then
      add_text s.1 s.2 ("[엘리베이터 피치] " ++ (mk.get "elevator_pitch").pyStr) 10 60
    else s
  let s := if (mk.get "social_media_posts").truthy then
      (List.enumFrom 1 ((mk.get "social_media_posts").asList.take 5)).foldl
        postStep (add_text s.1 s.2 "[소셜미디어 콘텐츠]" 11 60)
    else s
  s

/-- Body of section 6 (성과 지표); each KPI row draws its metric and,
when truthy, an indented target line. -/
def renderMetrics (s : Canvas × ℚ) (metrics : PyVal) : Canvas × ℚ :=
  let s := if (metrics.get "kpi_framework").truthy then
      (List.enumFrom 1 ((metrics.get "kpi_framework").asList.take 8)).foldl
        kpiStep (add_text s.1 s.2 "[KPI 프레임워크]" 11 60)
    else s
  let s := if (metrics.get "success_criteria").truthy then
      ((metrics.get "success_criteria").asList.take 5).foldl
        bulletStep (add_text s.1 s.2 "[성공 기준]" 11 60)
    else s
  s

/-- Body of section 7 (이해관계자 관리). -/
def renderStakeholders (s : Canvas × ℚ) (sh : PyVal) : Canvas × ℚ :=
  let s := if (sh.get "stakeholders").truthy then
      (List.enumFrom 1 ((sh.get "stakeholders").asList.take 6)).foldl
        stakeholderStep (add_text s.1 s.2 "[이해관계자 분석]" 11 60)
    else s
  let s := if (sh.get "objection_handling").truthy then
      ((sh.get "objection_handling").asList.take 4).foldl
        objStep (add_text s.1 s.2 "[반대 의견 대응]" 11 60)
    else s
  s

/-- Section 1: its numbered heading is drawn unconditionally; the body
runs only when the key is present; a 15 point gap follows. -/
def section1 (a : PyVal) (s : Canvas × ℚ) : Canvas × ℚ :=
  let s := add_heading s.1 s.2 "1. 정책 기획" 16
  let s := if a.hasKey "policy_planning" then renderPlanning s (a.get "policy_planning") else s
  (s.1, s.2 - 15)

/-- Section 2, preceded by a page break when fewer than 150 points
remain; the heading is unconditional, the body key-guarded. -/
def section2 (a : PyVal) (s : Canvas × ℚ) : Canvas × ℚ :=
  let s := if s.2 < 150 then new_page s.1 else s
  let s := add_heading s.1 s.2 "2. 실행 계획" 16
  let s := if a.hasKey "execution_plan" then renderExecution s (a.get "execution_plan") else s
  (s.1, s.2 - 15)

/-- Section 3. -/
def section3 (a : PyVal) (s : Canvas × ℚ) : Canvas × ℚ :=
  let s := if s.2 < 150 then new_page s.1 else s
  let s := add_heading s.1 s.2 "3. 커뮤니케이션 전략" 16
  let s := if a.hasKey "communication_strategy" then renderComm s (a.get "communication_strategy") else s
  (s.1, s.2 - 15)

/-- Section 4. -/
def section4 (a : PyVal) (s : Canvas × ℚ) : Canvas × ℚ :=
  let s := if s.2 < 150 then new_page s.1 else s
  let s := add_heading s.1 s.2 "4. 콘텐츠 제작 브리프" 16
  let s := if a.hasKey "content_briefs" then renderBriefs s (a.get "content_briefs") else s
  (s.1, s.2 - 15)

/-- Section 5. -/
def section5 (a : PyVal) (s : Canvas × ℚ) : Canvas × ℚ :=
  let s := if s.2 < 150 then new_page s.1 else s
  let s := add_heading s.1 s.2 "5. 마케팅 자료" 16
  let s := if a.hasKey "marketing_materials" then renderMarketing s (a.get "marketing_materials") else s
  (s.1, s.2 - 15)

/-- Section 6. -/
def section6 (a : PyVal) (s : Canvas × ℚ) : Canvas × ℚ :=
  let s := if s.2 < 150 then new_page s.1 else s
  let s := add_heading s.1 s.2 "6. 성과 지표 (KPI)" 16
  let s := if a.hasKey "performance_metrics" then renderMetrics s (a.get "performance_metrics") else s
  (s.1, s.2 - 15)

/-- Section 7. -/
def section7 (a : PyVal) (s : Canvas × ℚ) : Canvas × ℚ :=
  let s := if s.2 < 150 then new_page s.1 else s
  let s := add_heading s.1 s.2 "7. 이해관계자 관리" 16
  let s := if a.hasKey "stakeholder_management" then renderStakeholders s (a.get "stakeholder_management") else s
  (s.1, s.2 - 15)

/-- Section 8 (생성된 이미지), entered only when the image list is
non-empty: at most the first 4 images, each drawn inside a try/except;
decode b models whether reportlab/PIL can decode the blob b, and on
failure the whole per-image block is skipped and rendering continues.
The per-image page break runs before the try block, so it happens even
for a blob that fails to decode. -/
def imageStep (decode : List Nat → Bool) (s3 : Canvas × ℚ) (p : Nat × List Nat) : Canvas × ℚ :=
  let s4 := if s3.2 < 250 then new_page s3.1 else s3
  if decode p.2 then
    (s4.1 ++ [DrawOp.drawImage p.2 50 (s4.2 - 200) 450 200,
              DrawOp.setFont 10,
              DrawOp.drawString 50 (s4.2 - 220) ("이미지 " ++ toString p.1)],
     s4.2 - 250)
  else s4

def imageSection (decode : List Nat → Bool) (images : List (List Nat))
    (s : Canvas × ℚ) : Canvas × ℚ :=
  if images.isEmpty then s else
  let s := if s.2 < 150 then new_page s.1 else s
  let s := add_heading s.1 s.2 "8. 생성된 이미지" 16
  (List.enumFrom 1 (images.take 4)).foldl (imageStep decode) s

/-- Section 9 (영상 프롬프트), entered only when the prompt list is
non-empty; it always starts on a fresh page, renders at most the first
9 prompts, each pre-truncated to 600 characters before add_text. -/
def videoStep (s3 : Canvas × ℚ) (p : Nat × String) : Canvas × ℚ :=
  let s4 := if s3.2 < 150 then new_page s3.1 else s3
  let s5 := add_text s4.1 s4.2 ("[영상 " ++ toString p.1 ++ "]") 11 60
  let s6 := add_text s5.1 s5.2 (pyTake p.2 600) 9 70
  (s6.1, s6.2 - 15)

def videoSection (video_prompts : List String) (s : Canvas × ℚ) : Canvas × ℚ :=
  if video_prompts.isEmpty then s else
  let s := new_page s.1
  let s := add_heading s.1 s.2 "9. 영상 프롬프트" 16
  (List.enumFrom 1 (video_prompts.take 9)).foldl videoStep s

/-- The operation stream of create_pdf_report: the cover block, then,
only when the analysis is truthy (a non-empty mapping), a fresh page
followed by the nine sections in fixed order.  When the analysis is
falsy (None or an empty mapping) the function saves and returns right
after the cover, ignoring images and prompts. -/
def renderOps (decode : List Nat → Bool) (policy : Policy) (analysis : PyVal)
    (images : List (List Nat)) (video_prompts : List String) : Canvas :=
  let c := coverOps policy
  if analysis.truthy = false then c else
  let s := new_page c
  let s := section1 analysis s
  let s := section2 analysis s
  let s := section3 analysis s
  let s := section4 analysis s
  let s := section5 analysis s
  let s := section6 analysis s
  let s := section7 analysis s
  let s := imageSection decode images s
  let s := videoSection video_prompts s
  s.1

/-- create_pdf_report from src/app.py.  The first component is the
font face name every setFont operation uses (the CID font when
registration succeeded, Helvetica otherwise); the second is the
operation stream the canvas receives.  decode models the external
image decoder, env the call environment. -/
def create_pdf_report (env : Env) (decode : List Nat → Bool) (policy : Policy)
    (analysis : PyVal) (images : List (List Nat)) (video_prompts : List String) :
    String × Canvas :=
  (if env.fontOk then "HYSMyeongJo-Medium" else "Helvetica",
   renderOps decode policy analysis images video_prompts)

-- ==================== Projections of the operation stream ====================

/-- The sequence of text lines drawn on the canvas, in draw order. -/
def texts (c : Canvas) : List String :=
  c.filterMap fun op =>
    match op with
    | DrawOp.drawString _ _ s => some s
    | _ => Option.none

/-- The sequence of image blobs drawn on the canvas, in draw order. -/
def imageBlobs (c : Canvas) : List (List Nat) :=
  c.filterMap fun op =>
    match op with
    | DrawOp.drawImage b _ _ _ _ => some b
    | _ => Option.none

/-- The number of page breaks issued; the page count of the document
is one more than this. -/
def pageBreaks (c : Canvas) : Nat :=
  c.countP fun op =>
    match op with
    | DrawOp.showPage => true
    | _ => false

/-- The chunk list add_text draws for a given text at a given indent:
chunks of 85 characters at indent 60 and of 90 characters elsewhere,
at most the first 10 of them. -/
def addTextLines (text : String) (indent : ℚ) : List String :=
  (sliceChunks text (if indent = 60 then 85 else 90)).take 10

-- ==================== Specification-level text layout ====================

/-- The five cover lines. -/
def coverTexts (p : Policy) : List String :=
  ["정책 보고서",
   "제목: " ++ pyTake p.title 50,
   "카테고리: " ++ pyTake p.category 60,
   "대상: " ++ p.target_audience,
   "생성일: " ++ p.created_at]

def numberedItemTexts (p : Nat × PyVal) : List String :=
  addTextLines (toString p.1 ++ ". " ++ p.2.pyStr) 70

def bulletItemTexts (o : PyVal) : List String :=
  addTextLines ("• " ++ o.pyStr) 70

def actionItemTexts (p : Nat × PyVal) : List String :=
  addTextLines (toString p.1 ++ ". " ++ p.2.getStr "action") 70

def channelItemTexts (ch : PyVal) : List String :=
  addTextLines ("• " ++ ch.getStr "channel" ++ ": " ++ ch.getStr "content_type") 70

def postItemTexts (p : Nat × PyVal) : List String :=
  addTextLines (toString p.1 ++ ". " ++ p.2.getStr "platform" ++ ": " ++ p.2.getStr "content") 70

def kpiItemTexts (p : Nat × PyVal) : List String :=
  addTextLines (toString p.1 ++ ". " ++ p.2.getStr "metric") 70
  ++ (if (p.2.get "target_range").truthy then
        addTextLines ("   목표: " ++ (p.2.get "target_range").pyStr) 75
      else [])

def stakeholderItemTexts (p : Nat × PyVal) : List String :=
  addTextLines (toString p.1 ++ ". " ++ p.2.getStr "group" ++ ": " ++ p.2.getStr "interests") 70

def objItemTexts (obj : PyVal) : List String :=
  addTextLines ("• 반대: " ++ obj.getStr "objection") 70
  ++ addTextLines ("  대응: " ++ obj.getStr "response") 75

def imageItemTexts (decode : List Nat → Bool) (p : Nat × List Nat) : List String :=
  if decode p.2 then ["이미지 " ++ toString p.1] else []

def videoItemTexts (p : Nat × String) : List String :=
  addTextLines ("[영상 " ++ toString p.1 ++ "]") 60 ++ addTextLines (pyTake p.2 600) 70

/-- Text lines of the section-1 body. -/
def planningTexts (planning : PyVal) : List String :=
  (if (planning.get "objective").truthy then
      addTextLines ("[목표] " ++ (planning.get "objective").pyStr) 60 else [])
  ++ (if (planning.get "target_analysis").truthy then
      addTextLines ("[대상 분석] " ++ (planning.get "target_analysis").pyStr) 60 else [])
  ++ (if (planning.get "key_strategies").truthy then
      addTextLines "[핵심 전략]" 60
      ++ ((List.enumFrom 1 ((planning.get "key_strategies").asList.take 8)).map numberedItemTexts).flatten
      else [])
  ++ (if (planning.get "expected_outcomes").truthy then
      addTextLines "[기대 효과]" 60
      ++ (((planning.get "expected_outcomes").asList.take 5).map bulletItemTexts).flatten
      else [])

/-- Text lines of the section-2 body; risk_management contributes
nothing because the renderer never reads it. -/
def executionTexts (execution : PyVal) : List String :=
  (if (execution.get "action_items").truthy then
      addTextLines "[실행 항목]" 60
      ++ ((List.enumFrom 1 ((execution.get "action_items").asList.take 8)).map actionItemTexts).flatten
      else [])
  ++ (if (execution.get "resources_needed").truthy then
      addTextLines "[필요 자원]" 60
      ++ (if ((execution.get "resources_needed").get "budget_range").truthy then
            addTextLines ("예산: " ++ ((execution.get "resources_needed").get "budget_range").pyStr) 70
          else [])
      ++ (if ((execution.get "resources_needed").get "personnel").truthy then
            addTextLines ("인력: " ++ ((execution.get "resources_needed").get "personnel").pyStr) 70
          else [])
      else [])

/-- Text lines of the section-3 body. -/
def commTexts (comm : PyVal) : List String :=
  (if (comm.get "key_messages").truthy then
      addTextLines "[핵심 메시지]" 60
      ++ ((List.enumFrom 1 ((comm.get "key_messages").asList.take 8)).map numberedItemTexts).flatten
      else [])
  ++ (if (comm.get "channels").truthy then
      addTextLines "[채널 전략]" 60
      ++ (((comm.get "channels").asList.take 5).map channelItemTexts).flatten
      else [])

/-- Text lines of the section-4 body. -/
def briefsTexts (briefs : PyVal) : List String :=
  (if briefs.hasKey "image_brief_1" then
      addTextLines "[이미지 브리프 1]" 60
      ++ addTextLines ("컨셉: " ++ (briefs.get "image_brief_1").getStr "concept") 70
      ++ addTextLines ("장면: " ++ (briefs.get "image_brief_1").getStr "scene_description") 70
      else [])
  ++ (if briefs.hasKey "image_brief_2" then
      addTextLines "[이미지 브리프 2]" 60
      ++ addTextLines ("컨셉: " ++ (briefs.get "image_brief_2").getStr "concept") 70
      ++ addTextLines ("장면: " ++ (briefs.get "image_brief_2").getStr "scene_description") 70
      else [])
  ++ (if briefs.hasKey "video_brief" then
      addTextLines "[영상 브리프]" 60
      ++ addTextLines ("스토리: " ++ (briefs.get "video_brief").getStr "narrative_arc") 70
      else [])

/-- Text lines of the section-5 body. -/
def marketingTexts (mk : PyVal) : List String :=
  (if (mk.get "slogan").truthy then
      addTextLines ("[슬로건] " ++ (mk.get "slogan").pyStr) 60 else [])
  ++ (if (mk.get "tagline").truthy then
      addTextLines ("[태그라인] " ++ (mk.get "tagline").pyStr) 60 else [])
  ++ (if (mk.get "elevator_pitch").truthy then
      addTextLines ("[엘리베이터 피치] " ++ (mk.get "elevator_pitch").pyStr) 60 else [])
  ++ (if (mk.get "social_media_posts").truthy then
      addTextLines "[소셜미디어 콘텐츠]" 60
      ++ ((List.enumFrom 1 ((mk.get "social_media_posts").asList.take 5)).map postItemTexts).flatten
      else [])

/-- Text lines of the section-6 body. -/
def metricsTexts (metrics : PyVal) : List String :=
  (if (metrics.get "kpi_framework").truthy then
      addTextLines "[KPI 프레임워크]" 60
      ++ ((List.enumFrom 1 ((metrics.get "kpi_framework").asList.take 8)).map kpiItemTexts).flatten
      else [])
  ++ (if (metrics.get "success_criteria").truthy then
      addTextLines "[성공 기준]" 60
      ++ (((metrics.get "success_criteria").asList.take 5).map bulletItemTexts).flatten
      else [])

/-- Text lines of the section-7 body. -/
def stakeTexts (sh : PyVal) : List String :=
  (if (sh.get "stakeholders").truthy then
      addTextLines "[이해관계자 분석]" 60
      ++ ((List.enumFrom 1 ((sh.get "stakeholders").asList.take 6)).map stakeholderItemTexts).flatten
      else [])
  ++ (if (sh.get "objection_handling").truthy then
      addTextLines "[반대 의견 대응]" 60
      ++ (((sh.get "objection_handling").asList.take 4).map objItemTexts).flatten
      else [])

/-- Text lines of the image section: caption lines for the decodable
among the first four blobs, after the section heading, or nothing when
no images were supplied. -/
def imageSecTexts (decode : List Nat → Bool) (images : List (List Nat)) : List String :=
  if images.isEmpty then []
  else "8. 생성된 이미지" :: ((List.enumFrom 1 (images.take 4)).map (imageItemTexts decode)).flatten

/-- Text lines of the video-prompt section. -/
def videoSecTexts (video_prompts : List String) : List String :=
  if video_prompts.isEmpty then []
  else "9. 영상 프롬프트" :: ((List.enumFrom 1 (video_prompts.take 9)).map videoItemTexts).flatten

/-- Text lines of everything after the cover, for a truthy analysis:
the seven numbered headings are unconditional, each section body is
emitted only when its key is present, and the image and video sections
follow when their inputs are non-empty. -/
def bodyTexts (decode : List Nat → Bool) (a : PyVal) (images : List (List Nat))
    (video_prompts : List String) : List String :=
  "1. 정책 기획" ::
    ((if a.hasKey "policy_planning" then planningTexts (a.get "policy_planning") else [])
  ++ "2. 실행 계획" ::
    ((if a.hasKey "execution_plan" then executionTexts (a.get "execution_plan") else [])
  ++ "3. 커뮤니케이션 전략" ::
    ((if a.hasKey "communication_strategy" then commTexts (a.get "communication_strategy") else [])
  ++ "4. 콘텐츠 제작 브리프" ::
    ((if a.hasKey "content_briefs" then briefsTexts (a.get "content_briefs") else [])
  ++ "5. 마케팅 자료" ::
    ((if a.hasKey "marketing_materials" then marketingTexts (a.get "marketing_materials") else [])
  ++ "6. 성과 지표 (KPI)" ::
    ((if a.hasKey "performance_metrics" then metricsTexts (a.get "performance_metrics") else [])
  ++ "7. 이해관계자 관리" ::
    ((if a.hasKey "stakeholder_management" then stakeTexts (a.get "stakeholder_management") else [])
  ++ imageSecTexts decode images
  ++ videoSecTexts video_prompts)))))))

/-- The complete line sequence of a rendered report. -/
def reportTexts (decode : List Nat → Bool) (p : Policy) (a : PyVal)
    (images : List (List Nat)) (video_prompts : List String) : List String :=
  coverTexts p ++ (if a.truthy then bodyTexts decode a images video_prompts else [])

-- ==================== Characterisation lemmas ====================

@[simp] theorem texts_nil : texts [] = [] := rfl

@[simp] theorem texts_cons_setFont (q : ℚ) (c : Canvas) :
    texts (DrawOp.setFont q :: c) = texts c := rfl

@[simp] theorem texts_cons_drawString (x y : ℚ) (s : String) (c : Canvas) :
    texts (DrawOp.drawString x y s :: c) = s :: texts c := rfl

@[simp] theorem texts_cons_drawImage (b : List Nat) (x y w h : ℚ) (c : Canvas) :
    texts (DrawOp.drawImage b x y w h :: c) = texts c := rfl

@[simp] theorem texts_cons_showPage (c : Canvas) :
    texts (DrawOp.showPage :: c) = texts c := rfl

@[simp] theorem texts_append (c1 c2 : Canvas) :
    texts (c1 ++ c2) = texts c1 ++ texts c2 := by
  simp [texts, List.filterMap_append]

@[simp] theorem imageBlobs_nil : imageBlobs [] = [] := rfl

@[simp] theorem imageBlobs_cons_setFont (q : ℚ) (c : Canvas) :
    imageBlobs (DrawOp.setFont q :: c) = imageBlobs c := rfl

@[simp] theorem imageBlobs_cons_drawString (x y : ℚ) (s : String) (c : Canvas) :
    imageBlobs (DrawOp.drawString x y s :: c) = imageBlobs c := rfl

@[simp] theorem imageBlobs_cons_drawImage (b : List Nat) (x y w h : ℚ) (c : Canvas) :
    imageBlobs (DrawOp.drawImage b x y w h :: c) = b :: imageBlobs c := rfl

@[simp] theorem imageBlobs_cons_showPage (c : Canvas) :
    imageBlobs (DrawOp.showPage :: c) = imageBlobs c := rfl

@[simp] theorem imageBlobs_append (c1 c2 : Canvas) :
    imageBlobs (c1 ++ c2) = imageBlobs c1 ++ imageBlobs c2 := by
  simp [imageBlobs, List.filterMap_append]

@[simp] theorem texts_new_page (c : Canvas) : texts (new_page c).1 = texts c := by
  simp [new_page]

@[simp] theorem imageBlobs_new_page (c : Canvas) :
    imageBlobs (new_page c).1 = imageBlobs c := by
  simp [new_page]

@[simp] theorem texts_pagebreak (P : Prop) [Decidable P] (s : Canvas × ℚ) :
    texts (if P then new_page s.1 else s).1 = texts s.1 := by
  split <;> simp

@[simp] theorem imageBlobs_pagebreak (P : Prop) [Decidable P] (s : Canvas × ℚ) :
    imageBlobs (if P then new_page s.1 else s).1 = imageBlobs s.1 := by
  split <;> simp

@[simp] theorem texts_pagebreak2 (P : Prop) [Decidable P] (c : Canvas) (y : ℚ) :
    texts (if P then new_page c else (c, y)).1 = texts c := by
  split <;> simp

@[simp] theorem imageBlobs_pagebreak2 (P : Prop) [Decidable P] (c : Canvas) (y : ℚ) :
    imageBlobs (if P then new_page c else (c, y)).1 = imageBlobs c := by
  split <;> simp

@[simp] theorem texts_add_heading (c : Canvas) (y : ℚ) (t : String) (sz : ℚ) :
    texts (add_heading c y t sz).1 = texts c ++ [pyTake t 90] := by
  simp [add_heading]

@[simp] theorem imageBlobs_add_heading (c : Canvas) (y : ℚ) (t : String) (sz : ℚ) :
    imageBlobs (add_heading c y t sz).1 = imageBlobs c := by
  simp [add_heading]

theorem texts_drawLines (sz ind : ℚ) :
    ∀ (lines : List String) (s : Canvas × ℚ),
      texts (drawLines sz ind s lines).1 = texts s.1 ++ lines := by
  intro lines
  induction lines with
  | nil => intro s; simp [drawLines]
  | cons line rest ih =>
    intro s
    simp only [drawLines, ih]
    split <;> simp [List.append_assoc]

theorem imageBlobs_drawLines (sz ind : ℚ) :
    ∀ (lines : List String) (s : Canvas × ℚ),
      imageBlobs (drawLines sz ind s lines).1 = imageBlobs s.1 := by
  intro lines
  induction lines with
  | nil => intro s; simp [drawLines]
  | cons line rest ih =>
    intro s
    simp only [drawLines, ih]
    split <;> simp

@[simp] theorem texts_add_text (c : Canvas) (y : ℚ) (t : String) (sz ind : ℚ) :
    texts (add_text c y t sz ind).1 = texts c ++ addTextLines t ind := by
  simp [add_text, texts_drawLines, addTextLines]

@[simp] theorem imageBlobs_add_text (c : Canvas) (y : ℚ) (t : String) (sz ind : ℚ) :
    imageBlobs (add_text c y t sz ind).1 = imageBlobs c := by
  simp [add_text, imageBlobs_drawLines]

theorem texts_foldl {α : Type} (f : Canvas × ℚ → α → Canvas × ℚ) (h : α → List String)
    (hf : ∀ s a, texts (f s a).1 = texts s.1 ++ h a) :
    ∀ (l : List α) (s : Canvas × ℚ),
      texts (l.foldl f s).1 = texts s.1 ++ (l.map h).flatten := by
  intro l
  induction l with
  | nil => intro s; simp
  | cons a rest ih => intro s; simp [List.foldl_cons, ih, hf, List.append_assoc]

theorem imageBlobs_foldl {α : Type} (f : Canvas × ℚ → α → Canvas × ℚ)
    (h : α → List (List Nat))
    (hf : ∀ s a, imageBlobs (f s a).1 = imageBlobs s.1 ++ h a) :
    ∀ (l : List α) (s : Canvas × ℚ),
      imageBlobs (l.foldl f s).1 = imageBlobs s.1 ++ (l.map h).flatten := by
  intro l
  induction l with
  | nil => intro s; simp
  | cons a rest ih => intro s; simp [List.foldl_cons, ih, hf, List.append_assoc]

@[simp] theorem texts_numberedStrStep (s : Canvas × ℚ) (p : Nat × PyVal) :
    texts (numberedStrStep s p).1 = texts s.1 ++ numberedItemTexts p := by
  simp [numberedStrStep, numberedItemTexts]

@[simp] theorem texts_bulletStep (s : Canvas × ℚ) (o : PyVal) :
    texts (bulletStep s o).1 = texts s.1 ++ bulletItemTexts o := by
  simp [bulletStep, bulletItemTexts]

@[simp] theorem texts_actionStep (s : Canvas × ℚ) (p : Nat × PyVal) :
    texts (actionStep s p).1 = texts s.1 ++ actionItemTexts p := by
  simp [actionStep, actionItemTexts]

@[simp] theorem texts_channelStep (s : Canvas × ℚ) (ch : PyVal) :
    texts (channelStep s ch).1 = texts s.1 ++ channelItemTexts ch := by
  simp [channelStep, channelItemTexts]

@[simp] theorem texts_postStep (s : Canvas × ℚ) (p : Nat × PyVal) :
    texts (postStep s p).1 = texts s.1 ++ postItemTexts p := by
  simp [postStep, postItemTexts]

@[simp] theorem texts_kpiStep (s : Canvas × ℚ) (p : Nat × PyVal) :
    texts (kpiStep s p).1 = texts s.1 ++ kpiItemTexts p := by
  simp only [kpiStep, kpiItemTexts]
  split <;> simp [List.append_assoc]

@[simp] theorem texts_stakeholderStep (s : Canvas × ℚ) (p : Nat × PyVal) :
    texts (stakeholderStep s p).1 = texts s.1 ++ stakeholderItemTexts p := by
  simp [stakeholderStep, stakeholderItemTexts]

@[simp] theorem texts_objStep (s : Canvas × ℚ) (obj : PyVal) :
    texts (objStep s obj).1 = texts s.1 ++ objItemTexts obj := by
  simp [objStep, objItemTexts, List.append_assoc]

@[simp] theorem texts_imageStep (decode : List Nat → Bool) (s : Canvas × ℚ)
    (p : Nat × List Nat) :
    texts (imageStep decode s p).1 = texts s.1 ++ imageItemTexts decode p := by
  simp only [imageStep, imageItemTexts]
  split <;> simp [List.append_assoc]

@[simp] theorem texts_videoStep (s : Canvas × ℚ) (p : Nat × String) :
    texts (videoStep s p).1 = texts s.1 ++ videoItemTexts p := by
  simp [videoStep, videoItemTexts, List.append_assoc]

@[simp] theorem texts_foldl_numbered (l : List (Nat × PyVal)) (s : Canvas × ℚ) :
    texts (l.foldl numberedStrStep s).1 = texts s.1 ++ (l.map numberedItemTexts).flatten :=
  texts_foldl _ _ (fun s p => texts_numberedStrStep s p) l s

@[simp] theorem texts_foldl_bullet (l : List PyVal) (s : Canvas × ℚ) :
    texts (l.foldl bulletStep s).1 = texts s.1 ++ (l.map bulletItemTexts).flatten :=
  texts_foldl _ _ (fun s o => texts_bulletStep s o) l s

@[simp] theorem texts_foldl_action (l : List (Nat × PyVal)) (s : Canvas × ℚ) :
    texts (l.foldl actionStep s).1 = texts s.1 ++ (l.map actionItemTexts).flatten :=
  texts_foldl _ _ (fun s p => texts_actionStep s p) l s

@[simp] theorem texts_foldl_channel (l : List PyVal) (s : Canvas × ℚ) :
    texts (l.foldl channelStep s).1 = texts s.1 ++ (l.map channelItemTexts).flatten :=
  texts_foldl _ _ (fun s ch => texts_channelStep s ch) l s

@[simp] theorem texts_foldl_post (l : List (Nat × PyVal)) (s : Canvas × ℚ) :
    texts (l.foldl postStep s).1 = texts s.1 ++ (l.map postItemTexts).flatten :=
  texts_foldl _ _ (fun s p => texts_postStep s p) l s

@[simp] theorem texts_foldl_kpi (l : List (Nat × PyVal)) (s : Canvas × ℚ) :
    texts (l.foldl kpiStep s).1 = texts s.1 ++ (l.map kpiItemTexts).flatten :=
  texts_foldl _ _ (fun s p => texts_kpiStep s p) l s

@[simp] theorem texts_foldl_stakeholder (l : List (Nat × PyVal)) (s : Canvas × ℚ) :
    texts (l.foldl stakeholderStep s).1 = texts s.1 ++ (l.map stakeholderItemTexts).flatten :=
  texts_foldl _ _ (fun s p => texts_stakeholderStep s p) l s

@[simp] theorem texts_foldl_obj (l : List PyVal) (s : Canvas × ℚ) :
    texts (l.foldl objStep s).1 = texts s.1 ++ (l.map objItemTexts).flatten :=
  texts_foldl _ _ (fun s o => texts_objStep s o) l s

@[simp] theorem texts_foldl_image (decode : List Nat → Bool) (l : List (Nat × List Nat))
    (s : Canvas × ℚ) :
    texts (l.foldl (imageStep decode) s).1
      = texts s.1 ++ (l.map (imageItemTexts decode)).flatten :=
  texts_foldl _ _ (fun s p => texts_imageStep decode s p) l s

@[simp] theorem texts_foldl_video (l : List (Nat × String)) (s : Canvas × ℚ) :
    texts (l.foldl videoStep s).1 = texts s.1 ++ (l.map videoItemTexts).flatten :=
  texts_foldl _ _ (fun s p => texts_videoStep s p) l s

/-- The blobs one image-loop iteration draws. -/
def imageItemBlobs (decode : List Nat → Bool) (p : Nat × List Nat) : List (List Nat) :=
  if decode p.2 then [p.2] else []

@[simp] theorem imageBlobs_numberedStrStep (s : Canvas × ℚ) (p : Nat × PyVal) :
    imageBlobs (numberedStrStep s p).1 = imageBlobs s.1 := by
  simp [numberedStrStep]

@[simp] theorem imageBlobs_bulletStep (s : Canvas × ℚ) (o : PyVal) :
    imageBlobs (bulletStep s o).1 = imageBlobs s.1 := by
  simp [bulletStep]

@[simp] theorem imageBlobs_actionStep (s : Canvas × ℚ) (p : Nat × PyVal) :
    imageBlobs (actionStep s p).1 = imageBlobs s.1 := by
  simp [actionStep]

@[simp] theorem imageBlobs_channelStep (s : Canvas × ℚ) (ch : PyVal) :
    imageBlobs (channelStep s ch).1 = imageBlobs s.1 := by
  simp [channelStep]

@[simp] theorem imageBlobs_postStep (s : Canvas × ℚ) (p : Nat × PyVal) :
    imageBlobs (postStep s p).1 = imageBlobs s.1 := by
  simp [postStep]

@[simp] theorem imageBlobs_kpiStep (s : Canvas × ℚ) (p : Nat × PyVal) :
    imageBlobs (kpiStep s p).1 = imageBlobs s.1 := by
  simp only [kpiStep]
  split <;> simp

@[simp] theorem imageBlobs_stakeholderStep (s : Canvas × ℚ) (p : Nat × PyVal) :
    imageBlobs (stakeholderStep s p).1 = imageBlobs s.1 := by
  simp [stakeholderStep]

@[simp] theorem imageBlobs_objStep (s : Canvas × ℚ) (obj : PyVal) :
    imageBlobs (objStep s obj).1 = imageBlobs s.1 := by
  simp [objStep]

@[simp] theorem imageBlobs_imageStep (decode : List Nat → Bool) (s : Canvas × ℚ)
    (p : Nat × List Nat) :
    imageBlobs (imageStep decode s p).1 = imageBlobs s.1 ++ imageItemBlobs decode p := by
  simp only [imageStep, imageItemBlobs]
  split <;> simp [List.append_assoc]

@[simp] theorem imageBlobs_videoStep (s : Canvas × ℚ) (p : Nat × String) :
    imageBlobs (videoStep s p).1 = imageBlobs s.1 := by
  simp [videoStep]

@[simp] theorem imageBlobs_foldl_numbered (l : List (Nat × PyVal)) (s : Canvas × ℚ) :
    imageBlobs (l.foldl numberedStrStep s).1 = imageBlobs s.1 := by
  have := imageBlobs_foldl numberedStrStep (fun _ => [])
    (fun s p => by simp) l s
  simpa using this

@[simp] theorem imageBlobs_foldl_bullet (l : List PyVal) (s : Canvas × ℚ) :
    imageBlobs (l.foldl bulletStep s).1 = imageBlobs s.1 := by
  have := imageBlobs_foldl bulletStep (fun _ => []) (fun s o => by simp) l s
  simpa using this

@[simp] theorem imageBlobs_foldl_action (l : List (Nat × PyVal)) (s : Canvas × ℚ) :
    imageBlobs (l.foldl actionStep s).1 = imageBlobs s.1 := by
  have := imageBlobs_foldl actionStep (fun _ => []) (fun s p => by simp) l s
  simpa using this

@[simp] theorem imageBlobs_foldl_channel (l : List PyVal) (s : Canvas × ℚ) :
    imageBlobs (l.foldl channelStep s).1 = imageBlobs s.1 := by
  have := imageBlobs_foldl channelStep (fun _ => []) (fun s ch => by simp) l s
  simpa using this

@[simp] theorem imageBlobs_foldl_post (l : List (Nat × PyVal)) (s : Canvas × ℚ) :
    imageBlobs (l.foldl postStep s).1 = imageBlobs s.1 := by
  have := imageBlobs_foldl postStep (fun _ => []) (fun s p => by simp) l s
  simpa using this

@[simp] theorem imageBlobs_foldl_kpi (l : List (Nat × PyVal)) (s : Canvas × ℚ) :
    imageBlobs (l.foldl kpiStep s).1 = imageBlobs s.1 := by
  have := imageBlobs_foldl kpiStep (fun _ => []) (fun s p => by simp) l s
  simpa using this

@[simp] theorem imageBlobs_foldl_stakeholder (l : List (Nat × PyVal)) (s : Canvas × ℚ) :
    imageBlobs (l.foldl stakeholderStep s).1 = imageBlobs s.1 := by
  have := imageBlobs_foldl stakeholderStep (fun _ => []) (fun s p => by simp) l s
  simpa using this

@[simp] theorem imageBlobs_foldl_obj (l : List PyVal) (s : Canvas × ℚ) :
    imageBlobs (l.foldl objStep s).1 = imageBlobs s.1 := by
  have := imageBlobs_foldl objStep (fun _ => []) (fun s o => by simp) l s
  simpa using this

@[simp] theorem imageBlobs_foldl_image (decode : List Nat → Bool)
    (l : List (Nat × List Nat)) (s : Canvas × ℚ) :
    imageBlobs (l.foldl (imageStep decode) s).1
      = imageBlobs s.1 ++ (l.map (imageItemBlobs decode)).flatten :=
  imageBlobs_foldl _ _ (fun s p => imageBlobs_imageStep decode s p) l s

@[simp] theorem imageBlobs_foldl_video (l : List (Nat × String)) (s : Canvas × ℚ) :
    imageBlobs (l.foldl videoStep s).1 = imageBlobs s.1 := by
  have := imageBlobs_foldl videoStep (fun _ => []) (fun s p => by simp) l s
  simpa using this

@[simp] theorem pyTake_h1 : pyTake "1. 정책 기획" 90 = "1. 정책 기획" := rfl

@[simp] theorem pyTake_h2 : pyTake "2. 실행 계획" 90 = "2. 실행 계획" := rfl

@[simp] theorem pyTake_h3 : pyTake "3. 커뮤니케이션 전략" 90 = "3. 커뮤니케이션 전략" := rfl

@[simp] theorem pyTake_h4 : pyTake "4. 콘텐츠 제작 브리프" 90 = "4. 콘텐츠 제작 브리프" := rfl

@[simp] theorem pyTake_h5 : pyTake "5. 마케팅 자료" 90 = "5. 마케팅 자료" := rfl

@[simp] theorem pyTake_h6 : pyTake "6. 성과 지표 (KPI)" 90 = "6. 성과 지표 (KPI)" := rfl

@[simp] theorem pyTake_h7 : pyTake "7. 이해관계자 관리" 90 = "7. 이해관계자 관리" := rfl

@[simp] theorem pyTake_h8 : pyTake "8. 생성된 이미지" 90 = "8. 생성된 이미지" := rfl

@[simp] theorem pyTake_h9 : pyTake "9. 영상 프롬프트" 90 = "9. 영상 프롬프트" := rfl

theorem texts_renderPlanning (s : Canvas × ℚ) (pl : PyVal) :
    texts (renderPlanning s pl).1 = texts s.1 ++ planningTexts pl := by
  simp only [renderPlanning, planningTexts]
  repeat' split
  all_goals simp [List.append_assoc]

theorem texts_renderExecution (s : Canvas × ℚ) (ex : PyVal) :
    texts (renderExecution s ex).1 = texts s.1 ++ executionTexts ex := by
  simp only [renderExecution, executionTexts]
  repeat' split
  all_goals simp [List.append_assoc]

theorem texts_renderComm (s : Canvas × ℚ) (comm : PyVal) :
    texts (renderComm s comm).1 = texts s.1 ++ commTexts comm := by
  simp only [renderComm, commTexts]
  repeat' split
  all_goals simp [List.append_assoc]

theorem texts_renderBriefs (s : Canvas × ℚ) (briefs : PyVal) :
    texts (renderBriefs s briefs).1 = texts s.1 ++ briefsTexts briefs := by
  simp only [renderBriefs, briefsTexts]
  repeat' split
  all_goals simp [List.append_assoc]

theorem texts_renderMarketing (s : Canvas × ℚ) (mk : PyVal) :
    texts (renderMarketing s mk).1 = texts s.1 ++ marketingTexts mk := by
  simp only [renderMarketing, marketingTexts]
  repeat' split
  all_goals simp [List.append_assoc]

theorem texts_renderMetrics (s : Canvas × ℚ) (metrics : PyVal) :
    texts (renderMetrics s metrics).1 = texts s.1 ++ metricsTexts metrics := by
  simp only [renderMetrics, metricsTexts]
  repeat' split
  all_goals simp [List.append_assoc]

theorem texts_renderStakeholders (s : Canvas × ℚ) (sh : PyVal) :
    texts (renderStakeholders s sh).1 = texts s.1 ++ stakeTexts sh := by
  simp only [renderStakeholders, stakeTexts]
  repeat' split
  all_goals simp [List.append_assoc]

theorem imageBlobs_renderPlanning (s : Canvas × ℚ) (pl : PyVal) :
    imageBlobs (renderPlanning s pl).1 = imageBlobs s.1 := by
  simp only [renderPlanning]
  repeat' split
  all_goals simp

theorem imageBlobs_renderExecution (s : Canvas × ℚ) (ex : PyVal) :
    imageBlobs (renderExecution s ex).1 = imageBlobs s.1 := by
  simp only [renderExecution]
  repeat' split
  all_goals simp

theorem imageBlobs_renderComm (s : Canvas × ℚ) (comm : PyVal) :
    imageBlobs (renderComm s comm).1 = imageBlobs s.1 := by
  simp only [renderComm]
  repeat' split
  all_goals simp

theorem imageBlobs_renderBriefs (s : Canvas × ℚ) (briefs : PyVal) :
    imageBlobs (renderBriefs s briefs).1 = imageBlobs s.1 := by
  simp only [renderBriefs]
  repeat' split
  all_goals simp

theorem imageBlobs_renderMarketing (s : Canvas × ℚ) (mk : PyVal) :
    imageBlobs (renderMarketing s mk).1 = imageBlobs s.1 := by
  simp only [renderMarketing]
  repeat' split
  all_goals simp

theorem imageBlobs_renderMetrics (s : Canvas × ℚ) (metrics : PyVal) :
    imageBlobs (renderMetrics s metrics).1 = imageBlobs s.1 := by
  simp only [renderMetrics]
  repeat' split
  all_goals simp

theorem imageBlobs_renderStakeholders (s : Canvas × ℚ) (sh : PyVal) :
    imageBlobs (renderStakeholders s sh).1 = imageBlobs s.1 := by
  simp only [renderStakeholders]
  repeat' split
  all_goals simp

theorem texts_section1 (a : PyVal) (s : Canvas × ℚ) :
    texts (section1 a s).1 = texts s.1
      ++ "1. 정책 기획" :: (if a.hasKey "policy_planning" then planningTexts (a.get "policy_planning") else []) := by
  simp only [section1]
  split <;> simp_all [texts_renderPlanning]

theorem texts_section2 (a : PyVal) (s : Canvas × ℚ) :
    texts (section2 a s).1 = texts s.1
      ++ "2. 실행 계획" :: (if a.hasKey "execution_plan" then executionTexts (a.get "execution_plan") else []) := by
  simp only [section2]
  split <;> simp_all [texts_renderExecution]

theorem texts_section3 (a : PyVal) (s : Canvas × ℚ) :
    texts (section3 a s).1 = texts s.1
      ++ "3. 커뮤니케이션 전략" :: (if a.hasKey "communication_strategy" then commTexts (a.get "communication_strategy") else []) := by
  simp only [section3]
  split <;> simp_all [texts_renderComm]

theorem texts_section4 (a : PyVal) (s : Canvas × ℚ) :
    texts (section4 a s).1 = texts s.1
      ++ "4. 콘텐츠 제작 브리프" :: (if a.hasKey "content_briefs" then briefsTexts (a.get "content_briefs") else []) := by
  simp only [section4]
  split <;> simp_all [texts_renderBriefs]

theorem texts_section5 (a : PyVal) (s : Canvas × ℚ) :
    texts (section5 a s).1 = texts s.1
      ++ "5. 마케팅 자료" :: (if a.hasKey "marketing_materials" then marketingTexts (a.get "marketing_materials") else []) := by
  simp only [section5]
  split <;> simp_all [texts_renderMarketing]

theorem texts_section6 (a : PyVal) (s : Canvas × ℚ) :
    texts (section6 a s).1 = texts s.1
      ++ "6. 성과 지표 (KPI)" :: (if a.hasKey "performance_metrics" then metricsTexts (a.get "performance_metrics") else []) := by
  simp only [section6]
  split <;> simp_all [texts_renderMetrics]

theorem texts_section7 (a : PyVal) (s : Canvas × ℚ) :
    texts (section7 a s).1 = texts s.1
      ++ "7. 이해관계자 관리" :: (if a.hasKey "stakeholder_management" then stakeTexts (a.get "stakeholder_management") else []) := by
  simp only [section7]
  split <;> simp_all [texts_renderStakeholders]

theorem imageBlobs_section1 (a : PyVal) (s : Canvas × ℚ) :
    imageBlobs (section1 a s).1 = imageBlobs s.1 := by
  simp only [section1]
  split <;> simp_all [imageBlobs_renderPlanning]

theorem imageBlobs_section2 (a : PyVal) (s : Canvas × ℚ) :
    imageBlobs (section2 a s).1 = imageBlobs s.1 := by
  simp only [section2]
  split <;> simp_all [imageBlobs_renderExecution]

theorem imageBlobs_section3 (a : PyVal) (s : Canvas × ℚ) :
    imageBlobs (section3 a s).1 = imageBlobs s.1 := by
  simp only [section3]
  split <;> simp_all [imageBlobs_renderComm]

theorem imageBlobs_section4 (a : PyVal) (s : Canvas × ℚ) :
    imageBlobs (section4 a s).1 = imageBlobs s.1 := by
  simp only [section4]
  split <;> simp_all [imageBlobs_renderBriefs]

theorem imageBlobs_section5 (a : PyVal) (s : Canvas × ℚ) :
    imageBlobs (section5 a s).1 = imageBlobs s.1 := by
  simp only [section5]
  split <;> simp_all [imageBlobs_renderMarketing]

theorem imageBlobs_section6 (a : PyVal) (s : Canvas × ℚ) :
    imageBlobs (section6 a s).1 = imageBlobs s.1 := by
  simp only [section6]
  split <;> simp_all [imageBlobs_renderMetrics]

theorem imageBlobs_section7 (a : PyVal) (s : Canvas × ℚ) :
    imageBlobs (section7 a s).1 = imageBlobs s.1 := by
  simp only [section7]
  split <;> simp_all [imageBlobs_renderStakeholders]

theorem texts_imageSection (decode : List Nat → Bool) (imgs : List (List Nat))
    (s : Canvas × ℚ) :
    texts (imageSection decode imgs s).1 = texts s.1 ++ imageSecTexts decode imgs := by
  simp only [imageSection, imageSecTexts]
  split <;> simp [List.append_assoc]

theorem texts_videoSection (vps : List String) (s : Canvas × ℚ) :
    texts (videoSection vps s).1 = texts s.1 ++ videoSecTexts vps := by
  simp only [videoSection, videoSecTexts]
  split <;> simp [List.append_assoc]

/-- Enumerating, keeping blobs that decode, and flattening is
filtering by the decoder, whatever the enumeration starts at. -/
theorem flatten_imageItemBlobs (decode : List Nat → Bool) :
    ∀ (l : List (List Nat)) (n : Nat),
      ((List.enumFrom n l).map (imageItemBlobs decode)).flatten = l.filter decode := by
  intro l
  induction l with
  | nil => intro n; simp
  | cons b rest ih =>
    intro n
    simp only [List.enumFrom, List.map_cons, List.flatten_cons, ih, imageItemBlobs]
    split <;> simp_all [List.filter_cons]

theorem imageBlobs_imageSection (decode : List Nat → Bool) (imgs : List (List Nat))
    (s : Canvas × ℚ) :
    imageBlobs (imageSection decode imgs s).1
      = imageBlobs s.1 ++ (imgs.take 4).filter decode := by
  simp only [imageSection]
  split
  · rename_i h
    simp_all [List.isEmpty_iff]
  · simp [flatten_imageItemBlobs]

theorem imageBlobs_videoSection (vps : List String) (s : Canvas × ℚ) :
    imageBlobs (videoSection vps s).1 = imageBlobs s.1 := by
  simp only [videoSection]
  split <;> simp

/-- Complete characterisation of the drawn text lines of a report. -/
theorem texts_renderOps (decode : List Nat → Bool) (p : Policy) (a : PyVal)
    (imgs : List (List Nat)) (vps : List String) :
    texts (renderOps decode p a imgs vps) = reportTexts decode p a imgs vps := by
  have hcover : texts (coverOps p) = coverTexts p := rfl
  simp only [renderOps, reportTexts, bodyTexts]
  split
  · rename_i h
    simp_all
  · rename_i h
    simp_all [texts_videoSection, texts_imageSection, texts_section7, texts_section6,
      texts_section5, texts_section4, texts_section3, texts_section2, texts_section1,
      List.append_assoc]

/-- Complete characterisation of the drawn image blobs of a report:
nothing when the analysis is falsy, otherwise the decodable blobs
among the first four supplied, in order. -/
theorem imageBlobs_renderOps (decode : List Nat → Bool) (p : Policy) (a : PyVal)
    (imgs : List (List Nat)) (vps : List String) :
    imageBlobs (renderOps decode p a imgs vps)
      = if a.truthy then (imgs.take 4).filter decode else [] := by
  have hcover : imageBlobs (coverOps p) = [] := rfl
  simp only [renderOps]
  split
  · rename_i h
    simp_all
  · rename_i h
    simp_all [imageBlobs_videoSection, imageBlobs_imageSection, imageBlobs_section7,
      imageBlobs_section6, imageBlobs_section5, imageBlobs_section4, imageBlobs_section3,
      imageBlobs_section2, imageBlobs_section1]

-- ==================== Shared concrete fixtures ====================

/-- A small concrete policy record used by closed instances. -/
def p0 : Policy := { title := "T", category := "C", target_audience := "A", created_at := "D" }

/-- A concrete environment used by closed instances. -/
def env0 : Env := { fontOk := true, now := "" }

/-- A decoder for which every blob decodes. -/
def dec0 : List Nat → Bool := fun _ => true

/-- A non-empty analysis mapping that contains none of the seven
section keys. -/
def a0 : PyVal := PyVal.dict [("x", PyVal.str "y")]

/-- A decoder for which exactly the blob [0] fails to decode. -/
def dec3 : List Nat → Bool := fun b => b != [0]

/-- The seven top-level section keys of the analysis schema. -/
def sectionKeys : List String :=
  ["policy_planning", "execution_plan", "communication_strategy", "content_briefs",
   "marketing_materials", "performance_metrics", "stakeholder_management"]

-- ==================== Claims ====================

/-- C6: when the analysis argument is None, create_pdf_report always
succeeds and returns the cover-only document, for every subject
record, image list and text-block list: the operation stream is
exactly the cover block, its text lines are the five cover lines
(non-empty), no image is drawn, and no page break is issued (a single
page), so no numbered section heading can occur. -/
theorem c6_none_cover_only (env : Env) (decode : List Nat → Bool) (p : Policy)
    (imgs : List (List Nat)) (vps : List String) :
    (create_pdf_report env decode p PyVal.none imgs vps).2 = coverOps p
    ∧ texts (create_pdf_report env decode p PyVal.none imgs vps).2 = coverTexts p
    ∧ imageBlobs (create_pdf_report env decode p PyVal.none imgs vps).2 = []
    ∧ pageBreaks (create_pdf_report env decode p PyVal.none imgs vps).2 = 0
    ∧ coverTexts p ≠ [] := by
  refine ⟨rfl, rfl, rfl, rfl, ?_⟩
  simp [coverTexts]

/-- C8: rendering is deterministic and environment-independent: the
operation stream of create_pdf_report does not depend on the
environment (ambient clock, font-registration outcome) at all, so two
calls with identical inputs produce identical operation streams (hence
identical page count, section order and rendered text); the only
environment-dependent component of the result is the font face name;
and the rendered text is the cover lines — the single place the
subject timestamps appear — followed by body lines that are a function
of the analysis, images and prompts only. -/
theorem c8_deterministic (e1 e2 : Env) (decode : List Nat → Bool) (p : Policy)
    (a : PyVal) (imgs : List (List Nat)) (vps : List String) :
    (create_pdf_report e1 decode p a imgs vps).2 = (create_pdf_report e2 decode p a imgs vps).2
    ∧ texts (create_pdf_report e1 decode p a imgs vps).2
        = coverTexts p ++ (if a.truthy then bodyTexts decode a imgs vps else [])
    ∧ (create_pdf_report e1 decode p a imgs vps).1
        = (if e1.fontOk then "HYSMyeongJo-Medium" else "Helvetica") := by
  refine ⟨rfl, ?_, rfl⟩
  have h := texts_renderOps decode p a imgs vps
  simpa [create_pdf_report, reportTexts] using h

/-- C10: an empty analysis mapping is treated exactly like an absent
one — the falsiness check does not distinguish them — and its
rendering is the cover-only line list; whereas any non-empty mapping,
even one containing none of the seven section keys, takes the full
section path and in particular draws the numbered heading of section
1. -/
theorem c10_empty_vs_nonempty (env : Env) (decode : List Nat → Bool) (p : Policy)
    (imgs : List (List Nat)) (vps : List String) (kv : String × PyVal)
    (d : List (String × PyVal)) :
    (create_pdf_report env decode p (PyVal.dict []) imgs vps).2
      = (create_pdf_report env decode p PyVal.none imgs vps).2
    ∧ texts (create_pdf_report env decode p (PyVal.dict []) imgs vps).2 = coverTexts p
    ∧ "1. 정책 기획" ∈ texts (create_pdf_report env decode p (PyVal.dict (kv :: d)) imgs vps).2 := by
  refine ⟨rfl, rfl, ?_⟩
  have h := texts_renderOps decode p (PyVal.dict (kv :: d)) imgs vps
  have htru : (PyVal.dict (kv :: d)).truthy = true := rfl
  simp only [create_pdf_report]
  rw [h]
  simp [reportTexts, bodyTexts, htru]

/-- C1 counterexample: a0 is an analysis mapping that lacks all seven
named top-level sections, yet the rendered document is not cover-only:
the numbered heading of section 1 occurs among its text lines, because
a non-empty mapping passes the falsiness check and the seven numbered
headings are drawn unconditionally on that path. -/
theorem c1_cex :
    (∀ k ∈ sectionKeys, a0.hasKey k = false)
    ∧ "1. 정책 기획" ∈ texts (create_pdf_report env0 dec0 p0 a0 [] []).2 := by
  constructor
  · decide
  · have h := texts_renderOps dec0 p0 a0 [] []
    have htru : a0.truthy = true := rfl
    simp only [create_pdf_report]
    rw [h]
    simp [reportTexts, bodyTexts, htru]

/-- C1 (amended): for an analysis mapping lacking all seven sections
the outcome splits on emptiness: an empty mapping renders cover-only,
while a non-empty one renders the cover followed by exactly the seven
numbered section headings and nothing else (no section content, and
no further lines when no images or text blocks are supplied); neither
case fails. -/
theorem c1_amended (env : Env) (decode : List Nat → Bool) (p : Policy)
    (d : List (String × PyVal)) (hne : d ≠ [])
    (hmiss : ∀ k ∈ sectionKeys, (PyVal.dict d).hasKey k = false) :
    texts (create_pdf_report env decode p (PyVal.dict d) [] []).2
      = coverTexts p ++ ["1. 정책 기획", "2. 실행 계획", "3. 커뮤니케이션 전략",
          "4. 콘텐츠 제작 브리프", "5. 마케팅 자료", "6. 성과 지표 (KPI)",
          "7. 이해관계자 관리"]
    ∧ texts (create_pdf_report env decode p (PyVal.dict []) [] []).2 = coverTexts p := by
  refine ⟨?_, rfl⟩
  have h1 := hmiss "policy_planning" (by simp [sectionKeys])
  have h2 := hmiss "execution_plan" (by simp [sectionKeys])
  have h3 := hmiss "communication_strategy" (by simp [sectionKeys])
  have h4 := hmiss "content_briefs" (by simp [sectionKeys])
  have h5 := hmiss "marketing_materials" (by simp [sectionKeys])
  have h6 := hmiss "performance_metrics" (by simp [sectionKeys])
  have h7 := hmiss "stakeholder_management" (by simp [sectionKeys])
  have htru : (PyVal.dict d).truthy = true := by
    cases d with
    | nil => exact absurd rfl hne
    | cons kv r => rfl
  have h := texts_renderOps decode p (PyVal.dict d) [] []
  simp only [create_pdf_report]
  rw [h]
  simp [reportTexts, bodyTexts, htru, h1, h2, h3, h4, h5, h6, h7,
    imageSecTexts, videoSecTexts]

/-- C1 amended, witnessed at the concrete mapping a0. -/
theorem c1_amended_witness :
    texts (create_pdf_report env0 dec0 p0 (PyVal.dict [("x", PyVal.str "y")]) [] []).2
      = coverTexts p0 ++ ["1. 정책 기획", "2. 실행 계획", "3. 커뮤니케이션 전략",
          "4. 콘텐츠 제작 브리프", "5. 마케팅 자료", "6. 성과 지표 (KPI)",
          "7. 이해관계자 관리"]
    ∧ texts (create_pdf_report env0 dec0 p0 (PyVal.dict []) [] []).2 = coverTexts p0 :=
  c1_amended env0 dec0 p0 [("x", PyVal.str "y")] (by simp) (by decide)

/-- C2 counterexample: an analysis containing only policy_planning:
the execution_plan key is absent, yet the document still contains the
numbered heading of section 2, contradicting the claim that an absent
section contributes nothing, including its heading. -/
theorem c2_cex :
    (PyVal.dict [("policy_planning", PyVal.dict [("objective", PyVal.str "O")])]).hasKey
        "execution_plan" = false
    ∧ "2. 실행 계획" ∈ texts (create_pdf_report env0 dec0 p0
        (PyVal.dict [("policy_planning", PyVal.dict [("objective", PyVal.str "O")])]) [] []).2 := by
  constructor
  · decide
  · have h := texts_renderOps dec0 p0
      (PyVal.dict [("policy_planning", PyVal.dict [("objective", PyVal.str "O")])]) [] []
    have htru : (PyVal.dict [("policy_planning",
        PyVal.dict [("objective", PyVal.str "O")])]).truthy = true := rfl
    simp only [create_pdf_report]
    rw [h]
    simp [reportTexts, bodyTexts, htru]

/-- C2 (amended): for every non-empty analysis mapping the rendered
lines after the cover follow the fixed order section 1 through 7, then
images, then text blocks; each numbered heading is drawn
unconditionally, while the content of a section is emitted only when
its key is present — an absent key skips the section body but not the
heading. -/
theorem c2_amended (env : Env) (decode : List Nat → Bool) (p : Policy) (a : PyVal)
    (imgs : List (List Nat)) (vps : List String) (ha : a.truthy = true) :
    texts (create_pdf_report env decode p a imgs vps).2
      = coverTexts p
        ++ "1. 정책 기획" ::
          ((if a.hasKey "policy_planning" then planningTexts (a.get "policy_planning") else [])
        ++ "2. 실행 계획" ::
          ((if a.hasKey "execution_plan" then executionTexts (a.get "execution_plan") else [])
        ++ "3. 커뮤니케이션 전략" ::
          ((if a.hasKey "communication_strategy" then commTexts (a.get "communication_strategy") else [])
        ++ "4. 콘텐츠 제작 브리프" ::
          ((if a.hasKey "content_briefs" then briefsTexts (a.get "content_briefs") else [])
        ++ "5. 마케팅 자료" ::
          ((if a.hasKey "marketing_materials" then marketingTexts (a.get "marketing_materials") else [])
        ++ "6. 성과 지표 (KPI)" ::
          ((if a.hasKey "performance_metrics" then metricsTexts (a.get "performance_metrics") else [])
        ++ "7. 이해관계자 관리" ::
          ((if a.hasKey "stakeholder_management" then stakeTexts (a.get "stakeholder_management") else [])
        ++ imageSecTexts decode imgs
        ++ videoSecTexts vps))))))) := by
  have h := texts_renderOps decode p a imgs vps
  simp only [create_pdf_report]
  rw [h]
  simp [reportTexts, bodyTexts, ha]

/-- C2 amended, witnessed at a concrete non-empty mapping. -/
theorem c2_amended_witness :
    texts (create_pdf_report env0 dec0 p0 a0 [] []).2
      = coverTexts p0
        ++ "1. 정책 기획" ::
          ((if a0.hasKey "policy_planning" then planningTexts (a0.get "policy_planning") else [])
        ++ "2. 실행 계획" ::
          ((if a0.hasKey "execution_plan" then executionTexts (a0.get "execution_plan") else [])
        ++ "3. 커뮤니케이션 전략" ::
          ((if a0.hasKey "communication_strategy" then commTexts (a0.get "communication_strategy") else [])
        ++ "4. 콘텐츠 제작 브리프" ::
          ((if a0.hasKey "content_briefs" then briefsTexts (a0.get "content_briefs") else [])
        ++ "5. 마케팅 자료" ::
          ((if a0.hasKey "marketing_materials" then marketingTexts (a0.get "marketing_materials") else [])
        ++ "6. 성과 지표 (KPI)" ::
          ((if a0.hasKey "performance_metrics" then metricsTexts (a0.get "performance_metrics") else [])
        ++ "7. 이해관계자 관리" ::
          ((if a0.hasKey "stakeholder_management" then stakeTexts (a0.get "stakeholder_management") else [])
        ++ imageSecTexts dec0 []
        ++ videoSecTexts []))))))) :=
  c2_amended env0 dec0 p0 a0 [] [] (by decide)

/-- C9: generate_policy_analysis performs exactly one retry on
malformed JSON: when the first response text parses, it is returned
after a single api call; when it does not parse, exactly one retry
call is made and its parse result is returned together with the retry
text — in particular a retry that also fails to parse yields
(None, retry_text) — with no further calls in either case. -/
theorem c9_single_retry {α : Type} (loads : String → Option α)
    (api : Nat → Except String String) (raw : String)
    (h0 : api 0 = Except.ok raw) :
    (∀ d : α, parse_json_response loads raw = some d →
        generate_policy_analysis loads api = ((some d, raw), 1))
    ∧ (∀ rt : String, parse_json_response loads raw = Option.none →
        api 1 = Except.ok rt →
        generate_policy_analysis loads api = ((parse_json_response loads rt, rt), 2)) := by
  constructor
  · intro d hd
    simp [generate_policy_analysis, h0, hd]
  · intro rt hfail h1
    simp [generate_policy_analysis, h0, hfail, h1]

/-- C9 witnessed at a concrete decoder and response sequence: the
first response does not parse, the retry is made and also fails to
parse, and the function returns (none, retry text) after exactly two
api calls. -/
theorem c9_single_retry_witness :
    generate_policy_analysis (fun s => if s = "ok" then some 7 else Option.none)
      (fun n => if n = 0 then Except.ok "bad" else Except.ok "bad2")
      = ((Option.none, "bad2"), 2) := by
  have h := (c9_single_retry (fun s => if s = "ok" then some 7 else Option.none)
    (fun n => if n = 0 then Except.ok "bad" else Except.ok "bad2") "bad" rfl).2
    "bad2" (by decide) rfl
  rw [h]
  decide

/-- C3 counterexample: five blobs, of which only the first is corrupt:
the valid blob [4] is a valid image among the supplied ones, yet it is
absent from the rendered output, because the renderer keeps only the
first four blobs before filtering out the corrupt one — so the claim
that all valid images survive for any list with a single corrupt blob
fails. -/
theorem c3_cex :
    dec3 [0] = false ∧ dec3 [4] = true
    ∧ [4] ∉ imageBlobs (create_pdf_report env0 dec3 p0 a0 [[0], [1], [2], [3], [4]] []).2 := by
  refine ⟨rfl, rfl, ?_⟩
  have h := imageBlobs_renderOps dec3 p0 a0 [[0], [1], [2], [3], [4]] []
  simp only [create_pdf_report]
  rw [h]
  decide

/-- C3 (amended): for an image list of length at most four containing
exactly one corrupt blob among otherwise valid ones (and a non-empty
analysis, without which no image section is rendered), the output
contains exactly the valid blobs in their original relative order:
only the corrupt one is skipped, and rendering completes. -/
theorem c3_amended (env : Env) (decode : List Nat → Bool) (p : Policy) (a : PyVal)
    (vps : List String) (u w : List (List Nat)) (cb : List Nat)
    (ha : a.truthy = true) (hlen : (u ++ cb :: w).length ≤ 4)
    (hc : decode cb = false)
    (hu : ∀ b ∈ u, decode b = true) (hw : ∀ b ∈ w, decode b = true) :
    imageBlobs (create_pdf_report env decode p a (u ++ cb :: w) vps).2 = u ++ w := by
  have h := imageBlobs_renderOps decode p a (u ++ cb :: w) vps
  have hu2 : u.filter decode = u := List.filter_eq_self.mpr hu
  have hw2 : w.filter decode = w := List.filter_eq_self.mpr hw
  simp only [create_pdf_report]
  rw [h]
  simp [ha, List.take_of_length_le hlen, List.filter_append, List.filter_cons, hc, hu2, hw2]

/-- C3 amended, witnessed: blobs [1], [0], [2] with [0] corrupt render
as [1], [2]. -/
theorem c3_amended_witness :
    imageBlobs (create_pdf_report env0 dec3 p0 a0 [[1], [0], [2]] []).2 = [[1], [2]] :=
  c3_amended env0 dec3 p0 a0 [] [[1]] [[2]] [0] (by decide) (by decide) (by decide)
    (by decide) (by decide)

@[simp] theorem imgCap1 : "이미지 " ++ toString (1 : Nat) = "이미지 1" := rfl

@[simp] theorem imgCap2 : "이미지 " ++ toString (2 : Nat) = "이미지 2" := rfl

@[simp] theorem imgCap3 : "이미지 " ++ toString (3 : Nat) = "이미지 3" := rfl

@[simp] theorem imgCap4 : "이미지 " ++ toString (4 : Nat) = "이미지 4" := rfl

/-- The seven numbered sections of the body, without the image and
video sections. -/
def sectionHeadTexts (a : PyVal) : List String :=
  "1. 정책 기획" ::
    ((if a.hasKey "policy_planning" then planningTexts (a.get "policy_planning") else [])
  ++ "2. 실행 계획" ::
    ((if a.hasKey "execution_plan" then executionTexts (a.get "execution_plan") else [])
  ++ "3. 커뮤니케이션 전략" ::
    ((if a.hasKey "communication_strategy" then commTexts (a.get "communication_strategy") else [])
  ++ "4. 콘텐츠 제작 브리프" ::
    ((if a.hasKey "content_briefs" then briefsTexts (a.get "content_briefs") else [])
  ++ "5. 마케팅 자료" ::
    ((if a.hasKey "marketing_materials" then marketingTexts (a.get "marketing_materials") else [])
  ++ "6. 성과 지표 (KPI)" ::
    ((if a.hasKey "performance_metrics" then metricsTexts (a.get "performance_metrics") else [])
  ++ "7. 이해관계자 관리" ::
    (if a.hasKey "stakeholder_management" then stakeTexts (a.get "stakeholder_management") else [])))))))

theorem bodyTexts_decomp (decode : List Nat → Bool) (a : PyVal)
    (imgs : List (List Nat)) (vps : List String) :
    bodyTexts decode a imgs vps
      = sectionHeadTexts a ++ (imageSecTexts decode imgs ++ videoSecTexts vps) := by
  simp [bodyTexts, sectionHeadTexts, List.append_assoc]

theorem imageSecTexts_four (decode : List Nat → Bool) (b1 b2 b3 b4 : List Nat)
    (rest : List (List Nat)) (h1 : decode b1 = true) (h2 : decode b2 = true)
    (h3 : decode b3 = true) (h4 : decode b4 = true) :
    imageSecTexts decode (b1 :: b2 :: b3 :: b4 :: rest)
      = ["8. 생성된 이미지", "이미지 1", "이미지 2", "이미지 3", "이미지 4"] := by
  simp [imageSecTexts, List.enumFrom, imageItemTexts, h1, h2, h3, h4]

/-- C4: for any image list longer than four whose first four blobs
decode (and a non-empty analysis, without which no image section is
rendered at all), the output draws exactly the first four blobs, in
input order, and their caption lines are "이미지 1" through "이미지 4"
(caption text "이미지 n", the 1-based index), appearing right after the
image-section heading; every blob beyond the fourth is dropped without
error. -/
theorem c4_first_four_images (env : Env) (decode : List Nat → Bool) (p : Policy)
    (a : PyVal) (imgs : List (List Nat)) (vps : List String)
    (ha : a.truthy = true) (hlen : 4 < imgs.length)
    (hdec : ∀ b ∈ imgs.take 4, decode b = true) :
    imageBlobs (create_pdf_report env decode p a imgs vps).2 = imgs.take 4
    ∧ ∃ pre post, texts (create_pdf_report env decode p a imgs vps).2
        = pre ++ ["8. 생성된 이미지", "이미지 1", "이미지 2", "이미지 3", "이미지 4"] ++ post := by
  constructor
  · have h := imageBlobs_renderOps decode p a imgs vps
    have hfil : (imgs.take 4).filter decode = imgs.take 4 := List.filter_eq_self.mpr hdec
    simp only [create_pdf_report]
    rw [h]
    simp [ha, hfil]
  · cases imgs with
    | nil => simp at hlen
    | cons b1 t1 =>
      cases t1 with
      | nil => simp at hlen
      | cons b2 t2 =>
        cases t2 with
        | nil => simp at hlen
        | cons b3 t3 =>
          cases t3 with
          | nil => simp at hlen
          | cons b4 rest =>
            have hd1 : decode b1 = true := hdec b1 (by simp)
            have hd2 : decode b2 = true := hdec b2 (by simp)
            have hd3 : decode b3 = true := hdec b3 (by simp)
            have hd4 : decode b4 = true := hdec b4 (by simp)
            refine ⟨coverTexts p ++ sectionHeadTexts a, videoSecTexts vps, ?_⟩
            have h := texts_renderOps decode p a (b1 :: b2 :: b3 :: b4 :: rest) vps
            simp only [create_pdf_report]
            rw [h]
            simp [reportTexts, ha, bodyTexts_decomp,
              imageSecTexts_four decode b1 b2 b3 b4 rest hd1 hd2 hd3 hd4,
              List.append_assoc]

/-- C4 witnessed at five concrete blobs, all decodable. -/
theorem c4_first_four_images_witness :
    imageBlobs (create_pdf_report env0 dec0 p0 a0 [[1], [2], [3], [4], [5]] []).2
      = [[1], [2], [3], [4]]
    ∧ ∃ pre post, texts (create_pdf_report env0 dec0 p0 a0 [[1], [2], [3], [4], [5]] []).2
        = pre ++ ["8. 생성된 이미지", "이미지 1", "이미지 2", "이미지 3", "이미지 4"] ++ post := by
  have h := c4_first_four_images env0 dec0 p0 a0 [[1], [2], [3], [4], [5]] []
    (by decide) (by decide) (by decide)
  exact ⟨by rw [h.1]; decide, h.2⟩

/-- The chunk width add_text uses at a given indent. -/
def maxLenAt (indent : ℚ) : Nat := if indent = 60 then 85 else 90

/-- The number of chunks add_text slices: one per multiple of the
chunk width below min(length, 400). -/
def numChunks (t : String) (indent : ℚ) : Nat :=
  (min t.length 400 + maxLenAt indent - 1) / maxLenAt indent

/-- Flattening consecutive width-m slices of a list recovers its
prefix of k * m characters. -/
theorem chunksFlatten (l : List Char) (m : Nat) :
    ∀ k : Nat, ((List.range k).map (fun j => (l.drop (j * m)).take m)).flatten
      = l.take (k * m) := by
  intro k
  induction k with
  | zero => simp
  | succ k ih =>
    rw [List.range_succ]
    simp only [List.map_append, List.map_cons, List.map_nil, List.flatten_append,
      List.flatten_cons, List.flatten_nil, ih, List.append_nil]
    rw [Nat.succ_mul, List.take_add]

/-- A 425-character text: 424 letters a, then the letter Z at
character position 424 (0-based), beyond the first 400 characters. -/
def t425 : String := String.mk (List.replicate 424 'a' ++ ['Z'])

set_option maxRecDepth 100000 in
/-- C7 counterexample: at indent 60, add_text on a 425-character text
draws the character at position 424 — its chunks cover the whole text
— so the drawn chunks are not limited to the first 400 characters:
the first 400 characters of t425 are all a, yet Z is drawn. -/
theorem c7_cex :
    t425.length = 425
    ∧ t425.data.take 400 = List.replicate 400 'a'
    ∧ 'Z' ∈ (String.join (texts ((add_text [] (pageHeight - 50) t425 10 60).1))).data := by
  refine ⟨by decide, by decide, ?_⟩
  rw [texts_add_text]
  decide

/-- C7 (amended): add_text slices purely by character position into
fixed-width chunks of 85 characters at indent 60 and 90 characters at
any other indent, never respecting word boundaries; it draws at most
10 chunks (in fact at most 5): the chunk starts are the multiples of
the width below min(length, 400), so the drawn chunks cover exactly
the text prefix of numChunks * width characters — up to 425 characters
at indent 60 and up to 450 at a sub-indent, not 400 — and all overflow
beyond that prefix is silently dropped. -/
theorem c7_amended (c : Canvas) (y : ℚ) (t : String) (sz indent : ℚ) :
    texts (add_text c y t sz indent).1 = texts c ++ addTextLines t indent
    ∧ addTextLines t indent
        = (List.range (numChunks t indent)).map
            (fun j => String.mk ((t.data.drop (j * maxLenAt indent)).take (maxLenAt indent)))
    ∧ (addTextLines t indent).length = numChunks t indent
    ∧ numChunks t indent ≤ 5
    ∧ ((addTextLines t indent).map String.data).flatten
        = t.data.take (numChunks t indent * maxLenAt indent)
    ∧ numChunks t indent * maxLenAt indent ≤ (if indent = 60 then 425 else 450) := by
  have hmin := Nat.min_le_right t.length 400
  have hk5 : numChunks t indent ≤ 5 := by
    unfold numChunks maxLenAt
    split <;> omega
  have hrfl : addTextLines t indent
      = ((List.range (numChunks t indent)).map
          (fun j => String.mk ((t.data.drop (j * maxLenAt indent)).take (maxLenAt indent)))).take 10 := rfl
  have heq : addTextLines t indent
      = (List.range (numChunks t indent)).map
          (fun j => String.mk ((t.data.drop (j * maxLenAt indent)).take (maxLenAt indent))) := by
    rw [hrfl]
    refine List.take_of_length_le ?_
    simp only [List.length_map, List.length_range]
    omega
  refine ⟨texts_add_text c y t sz indent, heq, ?_, hk5, ?_, ?_⟩
  · rw [heq]; simp
  · rw [heq, List.map_map]
    have hcomp : String.data ∘ (fun j => String.mk ((t.data.drop (j * maxLenAt indent)).take (maxLenAt indent)))
        = fun j => (t.data.drop (j * maxLenAt indent)).take (maxLenAt indent) := rfl
    rw [hcomp, chunksFlatten]
  · unfold maxLenAt
    split <;> omega

/-- A risk sub-record in the shape the prompt schema prescribes. -/
def riskRec : PyVal :=
  PyVal.dict [("risk", PyVal.str "R"), ("impact", PyVal.str "I"), ("mitigation", PyVal.str "M")]

/-- An analysis whose execution_plan carries nine risk sub-records and
nothing else. -/
def a5 : PyVal :=
  PyVal.dict [("execution_plan",
    PyVal.dict [("risk_management", PyVal.list (List.replicate 9 riskRec))])]

/-- C5 counterexample: risk_management holds nine sub-records — more
than any of the caps 4 through 8 — yet the rendered document contains
zero of them: its lines are exactly the cover and the seven numbered
headings, with no risk, impact or mitigation text anywhere, because
the renderer never reads risk_management.  This contradicts the claim
that every listed sub-list, risks included, renders exactly its capped
count of items. -/
theorem c5_cex :
    ((a5.get "execution_plan").get "risk_management").asList.length = 9
    ∧ texts (create_pdf_report env0 dec0 p0 a5 [] []).2
        = coverTexts p0 ++ ["1. 정책 기획", "2. 실행 계획", "3. 커뮤니케이션 전략",
            "4. 콘텐츠 제작 브리프", "5. 마케팅 자료", "6. 성과 지표 (KPI)",
            "7. 이해관계자 관리"] := by
  refine ⟨by decide, ?_⟩
  have h := texts_renderOps dec0 p0 a5 [] []
  simp only [create_pdf_report]
  rw [h]
  decide

/-- An analysis populating every rendered capped list with the given
item lists, plus the never-rendered risk_management list. -/
def mkAnalysisC5 (s8 o5 ai8 rk ms8 ch5 po5 kp8 cr5 st6 ob4 : List PyVal) : PyVal :=
  PyVal.dict
    [("policy_planning", PyVal.dict
        [("key_strategies", PyVal.list s8), ("expected_outcomes", PyVal.list o5)]),
     ("execution_plan", PyVal.dict
        [("action_items", PyVal.list ai8), ("risk_management", PyVal.list rk)]),
     ("communication_strategy", PyVal.dict
        [("key_messages", PyVal.list ms8), ("channels", PyVal.list ch5)]),
     ("marketing_materials", PyVal.dict [("social_media_posts", PyVal.list po5)]),
     ("performance_metrics", PyVal.dict
        [("kpi_framework", PyVal.list kp8), ("success_criteria", PyVal.list cr5)]),
     ("stakeholder_management", PyVal.dict
        [("stakeholders", PyVal.list st6), ("objection_handling", PyVal.list ob4)])]

/-- C5 (amended): every rendered sub-list is truncated to its fixed
cap with no truncation marker: strategies and messages to 8, action
items to 8, KPIs to 8, outcomes, channels, posts and criteria to 5,
stakeholders to 6, objections to 4 — when a list holds more items than
its cap, exactly the capped count render, in original order — while
risk_management, although part of the schema, is not rendered at all:
no line of the output derives from it. -/
theorem c5_amended (env : Env) (decode : List Nat → Bool) (p : Policy)
    (s8 o5 ai8 rk ms8 ch5 po5 kp8 cr5 st6 ob4 : List PyVal)
    (h1 : 8 < s8.length) (h2 : 5 < o5.length) (h3 : 8 < ai8.length)
    (_h4 : 8 < rk.length) (h5 : 8 < ms8.length) (h6 : 5 < ch5.length)
    (h7 : 5 < po5.length) (h8 : 8 < kp8.length) (h9 : 5 < cr5.length)
    (h10 : 6 < st6.length) (h11 : 4 < ob4.length) :
    texts (create_pdf_report env decode p
        (mkAnalysisC5 s8 o5 ai8 rk ms8 ch5 po5 kp8 cr5 st6 ob4) [] []).2
      = coverTexts p
        ++ "1. 정책 기획" :: (addTextLines "[핵심 전략]" 60
            ++ ((List.enumFrom 1 (s8.take 8)).map numberedItemTexts).flatten
            ++ (addTextLines "[기대 효과]" 60 ++ ((o5.take 5).map bulletItemTexts).flatten))
        ++ "2. 실행 계획" :: (addTextLines "[실행 항목]" 60
            ++ ((List.enumFrom 1 (ai8.take 8)).map actionItemTexts).flatten)
        ++ "3. 커뮤니케이션 전략" :: (addTextLines "[핵심 메시지]" 60
            ++ ((List.enumFrom 1 (ms8.take 8)).map numberedItemTexts).flatten
            ++ (addTextLines "[채널 전략]" 60 ++ ((ch5.take 5).map channelItemTexts).flatten))
        ++ ["4. 콘텐츠 제작 브리프"]
        ++ "5. 마케팅 자료" :: (addTextLines "[소셜미디어 콘텐츠]" 60
            ++ ((List.enumFrom 1 (po5.take 5)).map postItemTexts).flatten)
        ++ "6. 성과 지표 (KPI)" :: (addTextLines "[KPI 프레임워크]" 60
            ++ ((List.enumFrom 1 (kp8.take 8)).map kpiItemTexts).flatten
            ++ (addTextLines "[성공 기준]" 60 ++ ((cr5.take 5).map bulletItemTexts).flatten))
        ++ "7. 이해관계자 관리" :: (addTextLines "[이해관계자 분석]" 60
            ++ ((List.enumFrom 1 (st6.take 6)).map stakeholderItemTexts).flatten
            ++ (addTextLines "[반대 의견 대응]" 60 ++ ((ob4.take 4).map objItemTexts).flatten))
    ∧ (s8.take 8).length = 8 ∧ (o5.take 5).length = 5 ∧ (ai8.take 8).length = 8
    ∧ (ms8.take 8).length = 8 ∧ (ch5.take 5).length = 5 ∧ (po5.take 5).length = 5
    ∧ (kp8.take 8).length = 8 ∧ (cr5.take 5).length = 5 ∧ (st6.take 6).length = 6
    ∧ (ob4.take 4).length = 4 := by
  have e1 : s8.isEmpty = false := by cases s8 with | nil => simp at h1 | cons a t => rfl
  have e2 : o5.isEmpty = false := by cases o5 with | nil => simp at h2 | cons a t => rfl
  have e3 : ai8.isEmpty = false := by cases ai8 with | nil => simp at h3 | cons a t => rfl
  have e5 : ms8.isEmpty = false := by cases ms8 with | nil => simp at h5 | cons a t => rfl
  have e6 : ch5.isEmpty = false := by cases ch5 with | nil => simp at h6 | cons a t => rfl
  have e7 : po5.isEmpty = false := by cases po5 with | nil => simp at h7 | cons a t => rfl
  have e8 : kp8.isEmpty = false := by cases kp8 with | nil => simp at h8 | cons a t => rfl
  have e9 : cr5.isEmpty = false := by cases cr5 with | nil => simp at h9 | cons a t => rfl
  have e10 : st6.isEmpty = false := by cases st6 with | nil => simp at h10 | cons a t => rfl
  have e11 : ob4.isEmpty = false := by cases ob4 with | nil => simp at h11 | cons a t => rfl
  refine ⟨?_, ?_, ?_, ?_, ?_, ?_, ?_, ?_, ?_, ?_, ?_⟩
  · have h := texts_renderOps decode p
      (mkAnalysisC5 s8 o5 ai8 rk ms8 ch5 po5 kp8 cr5 st6 ob4) [] []
    simp only [create_pdf_report]
    rw [h]
    simp [reportTexts, bodyTexts, mkAnalysisC5, planningTexts, executionTexts, commTexts,
      briefsTexts, marketingTexts, metricsTexts, stakeTexts, imageSecTexts, videoSecTexts,
      PyVal.get, PyVal.hasKey, PyVal.truthy, PyVal.asList, lookupKey,
      e1, e2, e3, e5, e6, e7, e8, e9, e10, e11, List.append_assoc]
  all_goals rw [List.length_take]; omega

/-- C5 amended, witnessed at concrete over-cap lists (each one item
longer than its cap, risks nine long). -/
theorem c5_amended_witness :
    texts (create_pdf_report env0 dec0 p0
        (mkAnalysisC5 (List.replicate 9 (PyVal.str "s")) (List.replicate 6 (PyVal.str "o"))
          (List.replicate 9 (PyVal.dict [("action", PyVal.str "a")]))
          (List.replicate 9 riskRec)
          (List.replicate 9 (PyVal.str "m"))
          (List.replicate 6 (PyVal.dict [("channel", PyVal.str "c"), ("content_type", PyVal.str "t")]))
          (List.replicate 6 (PyVal.dict [("platform", PyVal.str "p"), ("content", PyVal.str "c")]))
          (List.replicate 9 (PyVal.dict [("metric", PyVal.str "k")]))
          (List.replicate 6 (PyVal.str "cr"))
          (List.replicate 7 (PyVal.dict [("group", PyVal.str "g"), ("interests", PyVal.str "i")]))
          (List.replicate 5 (PyVal.dict [("objection", PyVal.str "ob"), ("response", PyVal.str "re")]))) [] []).2
      = coverTexts p0
        ++ "1. 정책 기획" :: (addTextLines "[핵심 전략]" 60
            ++ ((List.enumFrom 1 ((List.replicate 9 (PyVal.str "s")).take 8)).map numberedItemTexts).flatten
            ++ (addTextLines "[기대 효과]" 60
              ++ (((List.replicate 6 (PyVal.str "o")).take 5).map bulletItemTexts).flatten))
        ++ "2. 실행 계획" :: (addTextLines "[실행 항목]" 60
            ++ ((List.enumFrom 1 ((List.replicate 9 (PyVal.dict [("action", PyVal.str "a")])).take 8)).map actionItemTexts).flatten)
        ++ "3. 커뮤니케이션 전략" :: (addTextLines "[핵심 메시지]" 60
            ++ ((List.enumFrom 1 ((List.replicate 9 (PyVal.str "m")).take 8)).map numberedItemTexts).flatten
            ++ (addTextLines "[채널 전략]" 60
              ++ (((List.replicate 6 (PyVal.dict [("channel", PyVal.str "c"), ("content_type", PyVal.str "t")])).take 5).map channelItemTexts).flatten))
        ++ ["4. 콘텐츠 제작 브리프"]
        ++ "5. 마케팅 자료" :: (addTextLines "[소셜미디어 콘텐츠]" 60
            ++ ((List.enumFrom 1 ((List.replicate 6 (PyVal.dict [("platform", PyVal.str "p"), ("content", PyVal.str "c")])).take 5)).map postItemTexts).flatten)
        ++ "6. 성과 지표 (KPI)" :: (addTextLines "[KPI 프레임워크]" 60
            ++ ((List.enumFrom 1 ((List.replicate 9 (PyVal.dict [("metric", PyVal.str "k")])).take 8)).map kpiItemTexts).flatten
            ++ (addTextLines "[성공 기준]" 60
              ++ (((List.replicate 6 (PyVal.str "cr")).take 5).map bulletItemTexts).flatten))
        ++ "7. 이해관계자 관리" :: (addTextLines "[이해관계자 분석]" 60
            ++ ((List.enumFrom 1 ((List.replicate 7 (PyVal.dict [("group", PyVal.str "g"), ("interests", PyVal.str "i")])).take 6)).map stakeholderItemTexts).flatten
            ++ (addTextLines "[반대 의견 대응]" 60
              ++ (((List.replicate 5 (PyVal.dict [("objection", PyVal.str "ob"), ("response", PyVal.str "re")])).take 4).map objItemTexts).flatten))
    ∧ ((List.replicate 9 (PyVal.str "s")).take 8).length = 8
    ∧ ((List.replicate 6 (PyVal.str "o")).take 5).length = 5
    ∧ ((List.replicate 9 (PyVal.dict [("action", PyVal.str "a")])).take 8).length = 8
    ∧ ((List.replicate 9 (PyVal.str "m")).take 8).length = 8
    ∧ ((List.replicate 6 (PyVal.dict [("channel", PyVal.str "c"), ("content_type", PyVal.str "t")])).take 5).length = 5
    ∧ ((List.replicate 6 (PyVal.dict [("platform", PyVal.str "p"), ("content", PyVal.str "c")])).take 5).length = 5
    ∧ ((List.replicate 9 (PyVal.dict [("metric", PyVal.str "k")])).take 8).length = 8
    ∧ ((List.replicate 6 (PyVal.str "cr")).take 5).length = 5
    ∧ ((List.replicate 7 (PyVal.dict [("group", PyVal.str "g"), ("interests", PyVal.str "i")])).take 6).length = 6
    ∧ ((List.replicate 5 (PyVal.dict [("objection", PyVal.str "ob"), ("response", PyVal.str "re")])).take 4).length = 4 :=
  c5_amended env0 dec0 p0 _ _ _ _ _ _ _ _ _ _ _
    (by simp) (by simp) (by simp) (by simp) (by simp) (by simp)
    (by simp) (by simp) (by simp) (by simp) (by simp)
